import Mathlib

/-! # wclayer-v2: layer validation and the create / mount / unmount / remove actions

A shallow embedding of `cmd/wclayer-v2` (`stuff.go`, `create.go`, `mount.go`,
`remove.go`).  The operating system and the HCS storage services are external
to the program; they appear here as an explicit environment (`Env`, the
outcome each external call gives) and an explicit world state (`World`: the
filesystem namespace, the attached resources, the log of external calls and
what was printed).
-/

namespace WclayerV2

/-! ## Constants of `stuff.go` -/

/-- The constant `containerSandboxTemplateVHDXName` (stuff.go:22). -/
def containerSandboxTemplateVHDXName : String := "blank.vhdx"

/-- The constant `containerSandboxVHDXName` (stuff.go:23). -/
def containerSandboxVHDXName : String := "sandbox.vhdx"

/-! ## Errors -/

/-- An error value produced by an external call (the operating system, HCS).
`os.IsNotExist` holds of `notExist` only. -/
inductive ExtErr where
  | notExist
  | other (code : Nat)
  deriving DecidableEq, Repr

/-- The predicate `os.IsNotExist` on external errors. -/
def ExtErr.IsNotExist : ExtErr → Bool
  | .notExist => true
  | .other _ => false

/-- The error values the program returns.  `ext e` is an external error handed
back unchanged (`return err`); every other constructor is one `errors.New` or
`fmt.Errorf` call site of the program, with the arguments it formats. -/
inductive Error where
  /-- An external error returned as it is. -/
  | ext (e : ExtErr)
  /-- The message `at least one read-only layer must be specified` (stuff.go:52). -/
  | atLeastOneLayer
  /-- The message `failed to absolutify %q: %w` (stuff.go:63). -/
  | failedToAbsolutify (p : String) (cause : ExtErr)
  /-- The message `%q is not a directory, and cannot be used as a parent layer` (stuff.go:68). -/
  | notADirectory (fullPath : String)
  /-- The message `failed to Stat %q: %w` on the layer path (stuff.go:70). -/
  | failedToStatLayer (fullPath : String) (cause : ExtErr)
  /-- The message `failed to Stat %q: %w` on the `Files` child (stuff.go:77). -/
  | failedToStatFiles (filesDir : String) (cause : ExtErr)
  /-- The message `%q is not a directory, cannot use %q as a parent layer` (stuff.go:79). -/
  | filesNotADirectory (filesDir fullPath : String)
  /-- The message `failed to lookup Guid for %q: %w` (stuff.go:96). -/
  | failedToLookupGuid (fullPath : String) (cause : ExtErr)
  /-- The message `failed to Stat %q: %w` on the scratch disk (mount.go:36). -/
  | failedToStatSandbox (sandboxVHDXPath : String) (cause : ExtErr)
  /-- The message `failed to Attach %q: %w` (mount.go:40). -/
  | failedToAttach (sandboxVHDXPath : String) (cause : ExtErr)
  /-- The message `cannot create layer %q, something already exists` (create.go:35). -/
  | somethingAlreadyExists (path : String)
  /-- The message `failed to Stat %q: %w` on the target path (create.go:37). -/
  | failedToStatTarget (path : String) (cause : ExtErr)
  /-- The message `failed to Open %q for reading: %w` (create.go:50). -/
  | failedToOpen (templateVHDXPath : String) (cause : ExtErr)
  /-- The message `failed to create %q: %w` (create.go:55). -/
  | failedToMkdir (path : String) (cause : ExtErr)
  /-- The message `failed to Create %q for writing: %w` (create.go:61). -/
  | failedToCreate (sandboxVHDXPath : String) (cause : ExtErr)
  /-- The message `failed to Copy %q to %q: %w` (create.go:66). -/
  | failedToCopy (templateVHDXPath sandboxVHDXPath : String) (cause : ExtErr)
  deriving DecidableEq, Repr

/-- The error taxonomy of the specification (its section 7), for the error
sites the program words itself. -/
inductive ErrorKind where
  | InvalidArgument
  | NotFound
  | MissingContent
  | LookupFailed
  | AttachFailed
  | AlreadyExists
  | StatFailed
  | TemplateMissing
  | CreateFailed
  | CopyFailed
  /-- An external error handed back unchanged; its kind is that of the call. -/
  | External
  deriving DecidableEq, Repr

/-- The kind of each error site, as the specification names them: an empty list
or an unresolvable path is `InvalidArgument`; a layer path that cannot be used
as a directory is `NotFound`; a `Files` child that is not a directory is
`MissingContent`; a failed GUID lookup is `LookupFailed`; on create, a found
entry is `AlreadyExists` and an undetermined existence is `StatFailed`. -/
def Error.kind : Error → ErrorKind
  | .ext _ => .External
  | .atLeastOneLayer => .InvalidArgument
  | .failedToAbsolutify _ _ => .InvalidArgument
  | .notADirectory _ => .NotFound
  | .failedToStatLayer _ _ => .NotFound
  | .failedToStatFiles _ _ => .StatFailed
  | .filesNotADirectory _ _ => .MissingContent
  | .failedToLookupGuid _ _ => .LookupFailed
  | .failedToStatSandbox _ _ => .NotFound
  | .failedToAttach _ _ => .AttachFailed
  | .somethingAlreadyExists _ => .AlreadyExists
  | .failedToStatTarget _ _ => .StatFailed
  | .failedToOpen _ _ => .TemplateMissing
  | .failedToMkdir _ _ => .CreateFailed
  | .failedToCreate _ _ => .CreateFailed
  | .failedToCopy _ _ _ => .CopyFailed

/-! ## Data model -/

/-- The type `guid.GUID`, as its 128-bit value. -/
structure GUID where
  bits : Nat
  deriving DecidableEq, Repr

/-- The type `hcsschema.Version`. -/
structure Version where
  Major : Nat
  Minor : Nat
  deriving DecidableEq, Repr

/-- The type `hcsschema.Layer`. -/
structure Layer where
  Id : String
  Path : String
  PathType : String
  deriving DecidableEq, Repr

/-- The zero value of `hcsschema.Layer`, what `make` fills a slice with. -/
def Layer.zero : Layer := { Id := "", Path := "", PathType := "" }

/-- The type `computestorage.LayerData`. -/
structure LayerData where
  SchemaVersion : Version
  Layers : List Layer
  deriving DecidableEq, Repr

/-- What `os.Stat` reports of an entry: here only `IsDir`. -/
structure FileInfo where
  IsDir : Bool
  deriving DecidableEq, Repr

/-- An entry of the filesystem namespace. -/
inductive Node where
  | dir
  | file (content : List Nat)
  deriving DecidableEq, Repr

/-- A filesystem namespace: what looking a path up gives, an entry or the
error of the lookup (`notExist` when nothing is there). -/
abbrev FS := String → Except ExtErr Node

/-- The call `os.Stat`. -/
def Stat (fs : FS) (p : String) : Except ExtErr FileInfo :=
  match fs p with
  | .ok .dir => .ok { IsDir := true }
  | .ok (.file _) => .ok { IsDir := false }
  | .error e => .error e

/-- The outcomes of the external calls the program makes, each as a function
of the call's arguments.  `none` is a nil error. -/
structure Env where
  /-- The call `filepath.Abs`. -/
  Abs : String → Except ExtErr String
  /-- The call `filepath.Join` of a path and one element. -/
  Join : String → String → String
  /-- The call `filepath.Dir` iterated: the proper ancestors of a path, root first. -/
  Ancestors : String → List String
  /-- The call `wclayer.NameToGuid`. -/
  NameToGuid : String → Except ExtErr GUID
  /-- The method `guid.GUID.String`. -/
  GuidString : GUID → String
  /-- The value `*schemaversion.SchemaV21()`. -/
  SchemaV21 : Version
  /-- The call `vhd.AttachVhd`. -/
  AttachVhd : String → Option ExtErr
  /-- The call `vhd.DetachVhd`. -/
  DetachVhd : String → Option ExtErr
  /-- The call `computestorage.AttachLayerStorageFilter`. -/
  AttachLayerStorageFilter : String → LayerData → Option ExtErr
  /-- The call `computestorage.DetachLayerStorageFilter`. -/
  DetachLayerStorageFilter : String → Option ExtErr
  /-- The call `vhd.OpenVirtualDisk`; on failure the handle returned is 0. -/
  OpenVirtualDisk : String → Except ExtErr Nat
  /-- The call `windows.CloseHandle`. -/
  CloseHandle : Nat → Option ExtErr
  /-- The call `computestorage.GetLayerVhdMountPath`. -/
  GetLayerVhdMountPath : Nat → Except ExtErr String
  /-- The call `fmt.Println` of one string. -/
  Println : String → Option ExtErr
  /-- A failure of `os.Open` the namespace does not explain. -/
  OpenFault : String → Option ExtErr
  /-- A failure of `os.Mkdir` the namespace does not explain. -/
  MkdirFault : String → Option ExtErr
  /-- A failure of `os.Create` the namespace does not explain. -/
  CreateFault : String → Option ExtErr
  /-- A failure of `io.Copy`, destination first. -/
  CopyFault : String → String → Option ExtErr
  /-- The call `winio.EnableProcessPrivileges`. -/
  EnableProcessPrivileges : List String → Option ExtErr
  /-- The call `computestorage.DestroyLayer`. -/
  DestroyLayer : String → Option ExtErr

/-! ## `getLayerData` (stuff.go:50-108) -/

/-- The loop of `getLayerData` (stuff.go:60-105), at index `i` with the entries
`il[i:]` still to visit and `result.Layers` as filled so far. -/
def getLayerDataLoop (env : Env) (fs : FS) :
    List String → Nat → List Layer → Except Error (List Layer)
  | [], _, layers => .ok layers
  | p :: rest, i, layers =>
    match env.Abs p with
    | .error err => .error (.failedToAbsolutify p err)
    | .ok fullPath =>
      match Stat fs fullPath with
      | .error err => .error (.failedToStatLayer fullPath err)
      | .ok st =>
        if !st.IsDir then .error (.notADirectory fullPath)
        else
          let filesDir := env.Join fullPath "Files"
          match Stat fs filesDir with
          | .error err =>
            if !err.IsNotExist then .error (.failedToStatFiles filesDir err)
            else .error (.filesNotADirectory filesDir fullPath)
          | .ok st =>
            if !st.IsDir then .error (.filesNotADirectory filesDir fullPath)
            else
              match env.NameToGuid fullPath with
              | .error err => .error (.failedToLookupGuid fullPath err)
              | .ok guid =>
                getLayerDataLoop env fs rest (i + 1)
                  (layers.set i
                    { Id := env.GuidString guid, Path := fullPath, PathType := "AbsolutePath" })

/-- The function `getLayerData` (stuff.go:50-108). -/
def getLayerData (env : Env) (fs : FS) (il : List String) (needOne : Bool) :
    Except Error LayerData :=
  if needOne && il.length == 0 then .error .atLeastOneLayer
  else
    match getLayerDataLoop env fs il 0 (List.replicate il.length Layer.zero) with
    | .error err => .error err
    | .ok layers => .ok { SchemaVersion := env.SchemaV21, Layers := layers }

/-! ## The world the actions run in -/

/-- An external call, or a step of the program worth logging. -/
inductive Call where
  | Stat (p : String)
  | getLayerData (il : List String) (needOne : Bool)
  | AttachVhd (p : String)
  | DetachVhd (p : String)
  | AttachLayerStorageFilter (p : String) (ld : LayerData)
  | DetachLayerStorageFilter (p : String)
  | OpenVirtualDisk (p : String)
  | CloseHandle (h : Nat)
  | GetLayerVhdMountPath (h : Nat)
  | Println (s : String)
  | Open (p : String)
  | Close (p : String)
  | MkdirAll (p : String)
  | Create (p : String)
  | Copy (dst src : String)
  | EnableProcessPrivileges (names : List String)
  | DestroyLayer (p : String)
  deriving DecidableEq, Repr

/-- One entry of the call log: the call and whether it succeeded. -/
structure Event where
  call : Call
  ok : Bool
  deriving DecidableEq, Repr

/-- The resources held outside the process: the attached virtual disks and
the paths a storage filter is attached to. -/
structure Resources where
  vhds : List String
  filters : List String
  deriving DecidableEq, Repr

/-- The state outside the program. -/
structure World where
  fs : FS
  res : Resources
  trace : List Event
  stdout : List String

/-- Append one entry to the call log. -/
def World.log (w : World) (c : Call) (ok : Bool) : World :=
  { w with trace := w.trace ++ [{ call := c, ok := ok }] }

/-- The call `os.Stat`, logged. -/
def callStat (w : World) (p : String) : Except ExtErr FileInfo × World :=
  let r := Stat w.fs p
  (r, w.log (.Stat p) r.toBool)

/-- The call `vhd.AttachVhd`: on success the disk is attached. -/
def callAttachVhd (env : Env) (w : World) (p : String) : Option ExtErr × World :=
  match env.AttachVhd p with
  | some e => (some e, w.log (.AttachVhd p) false)
  | none =>
    (none, { w.log (.AttachVhd p) true with res := { w.res with vhds := p :: w.res.vhds } })

/-- The call `vhd.DetachVhd`: on success the disk is no longer attached. -/
def callDetachVhd (env : Env) (w : World) (p : String) : Option ExtErr × World :=
  match env.DetachVhd p with
  | some e => (some e, w.log (.DetachVhd p) false)
  | none =>
    (none, { w.log (.DetachVhd p) true with
      res := { w.res with vhds := w.res.vhds.filter (fun q => q != p) } })

/-- The call `computestorage.AttachLayerStorageFilter`: on success the filter
is attached to the path. -/
def callAttachLayerStorageFilter (env : Env) (w : World) (p : String) (ld : LayerData) :
    Option ExtErr × World :=
  match env.AttachLayerStorageFilter p ld with
  | some e => (some e, w.log (.AttachLayerStorageFilter p ld) false)
  | none =>
    (none, { w.log (.AttachLayerStorageFilter p ld) true with
      res := { w.res with filters := p :: w.res.filters } })

/-- The call `computestorage.DetachLayerStorageFilter`: on success no filter
is attached to the path. -/
def callDetachLayerStorageFilter (env : Env) (w : World) (p : String) :
    Option ExtErr × World :=
  match env.DetachLayerStorageFilter p with
  | some e => (some e, w.log (.DetachLayerStorageFilter p) false)
  | none =>
    (none, { w.log (.DetachLayerStorageFilter p) true with
      res := { w.res with filters := w.res.filters.filter (fun q => q != p) } })

/-- The call `vhd.OpenVirtualDisk`, giving the handle and the error; the
handle is 0 when the call fails. -/
def callOpenVirtualDisk (env : Env) (w : World) (p : String) : (Nat × Option ExtErr) × World :=
  match env.OpenVirtualDisk p with
  | .error e => ((0, some e), w.log (.OpenVirtualDisk p) false)
  | .ok h => ((h, none), w.log (.OpenVirtualDisk p) true)

/-- The call `windows.CloseHandle`. -/
def callCloseHandle (env : Env) (w : World) (h : Nat) : Option ExtErr × World :=
  (env.CloseHandle h, w.log (.CloseHandle h) (env.CloseHandle h).isNone)

/-- The call `computestorage.GetLayerVhdMountPath`. -/
def callGetLayerVhdMountPath (env : Env) (w : World) (h : Nat) : Except ExtErr String × World :=
  (env.GetLayerVhdMountPath h, w.log (.GetLayerVhdMountPath h) (env.GetLayerVhdMountPath h).toBool)

/-- The call `fmt.Println`: on success the line is on standard output. -/
def callPrintln (env : Env) (w : World) (s : String) : Option ExtErr × World :=
  match env.Println s with
  | some e => (some e, w.log (.Println s) false)
  | none => (none, { w.log (.Println s) true with stdout := w.stdout ++ [s] })

/-- The call of `getLayerData` from an action, logged; it only reads the
filesystem. -/
def callGetLayerData (env : Env) (w : World) (il : List String) (needOne : Bool) :
    Except Error LayerData × World :=
  let r := getLayerData env w.fs il needOne
  (r, w.log (.getLayerData il needOne) r.toBool)

/-! ## `mount` and `unmount` (mount.go) -/

/-- Lines 75-100 of mount.go, after both deferred detaches are registered:
open the disk, defer `CloseHandle`, resolve the mount path, print it.  The
error of `OpenVirtualDisk` is assigned to `err` and overwritten by the next
assignment without having been read. -/
def mountResolve (env : Env) (w : World) (sandboxVHDXPath : String) : Option Error × World :=
  let ((vhdHandle, _err), w) := callOpenVirtualDisk env w sandboxVHDXPath
  let (err, w) : Option Error × World :=
    match callGetLayerVhdMountPath env w vhdHandle with
    | (.error e, w) => (some (.ext e), w)
    | (.ok mountPath, w) =>
      let (e, w) := callPrintln env w mountPath
      (e.map .ext, w)
  (err, (callCloseHandle env w vhdHandle).2)

/-- Lines 51-100 of mount.go, after the deferred `DetachVhd` is registered,
with the deferred `DetachLayerStorageFilter` (mount.go:69-73) run on the way out. -/
def mountFilter (env : Env) (w : World) (path sandboxVHDXPath : String) (layers : List String) :
    Option Error × World :=
  match callGetLayerData env w layers true with
  | (.error e, w) => (some e, w)
  | (.ok layerData, w) =>
    match callAttachLayerStorageFilter env w path layerData with
    | (some e, w) => (some (.ext e), w)
    | (none, w) =>
      let (err, w) := mountResolve env w sandboxVHDXPath
      if err.isSome then (err, (callDetachLayerStorageFilter env w path).2) else (err, w)

/-- The action of `mountCommand` (mount.go:27-101) on the scratch path `arg0`
and the `--layer` values `layers`; the deferred `DetachVhd` (mount.go:43-47)
runs last. -/
def mountAction (env : Env) (arg0 : String) (layers : List String) (w : World) :
    Option Error × World :=
  match env.Abs arg0 with
  | .error e => (some (.ext e), w)
  | .ok path =>
    let sandboxVHDXPath := env.Join path containerSandboxVHDXName
    match callStat w sandboxVHDXPath with
    | (.error e, w) => (some (.failedToStatSandbox sandboxVHDXPath e), w)
    | (.ok _, w) =>
      match callAttachVhd env w sandboxVHDXPath with
      | (some e, w) => (some (.failedToAttach sandboxVHDXPath e), w)
      | (none, w) =>
        let (err, w) := mountFilter env w path sandboxVHDXPath layers
        if err.isSome then (err, (callDetachVhd env w sandboxVHDXPath).2) else (err, w)

/-- The action of `unmountCommand` (mount.go:109-131). -/
def unmountAction (env : Env) (arg0 : String) (w : World) : Option Error × World :=
  match env.Abs arg0 with
  | .error e => (some (.ext e), w)
  | .ok path =>
    let (e, w) := callDetachLayerStorageFilter env w path
    (e.map .ext, w)

/-! ## `remove` (remove.go) -/

/-- The constant `winio.SeBackupPrivilege`. -/
def SeBackupPrivilege : String := "SeBackupPrivilege"

/-- The constant `winio.SeRestorePrivilege`. -/
def SeRestorePrivilege : String := "SeRestorePrivilege"

/-- The action of `removeCommand` (remove.go:19-31). -/
def removeAction (env : Env) (arg0 : String) (w : World) : Option Error × World :=
  match env.Abs arg0 with
  | .error e => (some (.ext e), w)
  | .ok path =>
    let names := [SeBackupPrivilege, SeRestorePrivilege]
    match env.EnableProcessPrivileges names with
    | some e => (some (.ext e), w.log (.EnableProcessPrivileges names) false)
    | none =>
      let w := w.log (.EnableProcessPrivileges names) true
      let r := env.DestroyLayer path
      (r.map .ext, w.log (.DestroyLayer path) r.isNone)

/-! ## `create` (create.go) -/

/-- The namespace with the entry at `p` replaced. -/
def FS.set (fs : FS) (p : String) (n : Node) : FS :=
  fun q => if q = p then .ok n else fs q

/-- The errno `ENOTDIR`. -/
def ENOTDIR : ExtErr := .other 20

/-- The errno `EISDIR`. -/
def EISDIR : ExtErr := .other 21

/-- How an action ends: it returns its error result, or the run-time panics on
an index out of range. -/
inductive Exit where
  | returned (err : Option Error)
  | indexOutOfRange
  deriving DecidableEq, Repr

/-- The call `os.Open` for reading: the entry must be there. -/
def callOpen (env : Env) (w : World) (p : String) : Option ExtErr × World :=
  match w.fs p with
  | .error e => (some e, w.log (.Open p) false)
  | .ok _ =>
    match env.OpenFault p with
    | some e => (some e, w.log (.Open p) false)
    | none => (none, w.log (.Open p) true)

/-- The method `File.Close`; its result is never read. -/
def callClose (w : World) (p : String) : Option ExtErr × World :=
  (none, w.log (.Close p) true)

/-- The walk of `os.MkdirAll` over the ancestors of the path and the path
itself, root first: a directory is kept, a file stops the walk with `ENOTDIR`,
anything else is made a directory unless `os.Mkdir` fails; what was made
before a failure stays. -/
def mkdirAllLoop (env : Env) : List String → FS → Option ExtErr × FS
  | [], fs => (none, fs)
  | q :: rest, fs =>
    match fs q with
    | .ok .dir => mkdirAllLoop env rest fs
    | .ok (.file _) => (some ENOTDIR, fs)
    | .error _ =>
      match env.MkdirFault q with
      | some e => (some e, fs)
      | none => mkdirAllLoop env rest (fs.set q .dir)

/-- The call `os.MkdirAll`. -/
def callMkdirAll (env : Env) (w : World) (p : String) : Option ExtErr × World :=
  let (e, fs) := mkdirAllLoop env (env.Ancestors p ++ [p]) w.fs
  (e, { w.log (.MkdirAll p) e.isNone with fs := fs })

/-- The call `os.Create`: the file is created, or truncated when one is there. -/
def callCreate (env : Env) (w : World) (p : String) : Option ExtErr × World :=
  match env.CreateFault p with
  | some e => (some e, w.log (.Create p) false)
  | none =>
    match w.fs p with
    | .ok .dir => (some EISDIR, w.log (.Create p) false)
    | .error (.other c) => (some (.other c), w.log (.Create p) false)
    | _ => (none, { w.log (.Create p) true with fs := w.fs.set p (.file []) })

/-- The call `io.Copy` from the open file `src` to the freshly created file
`dst`: the whole content of `src` is written to `dst`. -/
def callCopy (env : Env) (w : World) (dst src : String) : Option ExtErr × World :=
  match env.CopyFault dst src with
  | some e => (some e, w.log (.Copy dst src) false)
  | none =>
    match w.fs src with
    | .ok (.file c) => (none, { w.log (.Copy dst src) true with fs := w.fs.set dst (.file c) })
    | .ok .dir => (some EISDIR, w.log (.Copy dst src) false)
    | .error e => (some e, w.log (.Copy dst src) false)

/-- Lines 54-69 of create.go, after the template is open: make the directory,
create the scratch disk, copy the template into it; the deferred
`sandbox.Close` runs on the way out. -/
def createCopy (env : Env) (w : World) (path templateVHDXPath : String) : Option Error × World :=
  match callMkdirAll env w path with
  | (some e, w) => (some (.failedToMkdir path e), w)
  | (none, w) =>
    let sandboxVHDXPath := env.Join path containerSandboxVHDXName
    match callCreate env w sandboxVHDXPath with
    | (some e, w) => (some (.failedToCreate sandboxVHDXPath e), w)
    | (none, w) =>
      let (e, w) := callCopy env w sandboxVHDXPath templateVHDXPath
      (e.map (.failedToCopy templateVHDXPath sandboxVHDXPath), (callClose w sandboxVHDXPath).2)

/-- The action of `createCommand` (create.go:25-70) on the target path `arg0`
and the `--layer` values `layers`. -/
def createAction (env : Env) (arg0 : String) (layers : List String) (w : World) : Exit × World :=
  match env.Abs arg0 with
  | .error e => (.returned (some (.ext e)), w)
  | .ok path =>
    match callStat w path with
    | (.ok _, w) => (.returned (some (.somethingAlreadyExists path)), w)
    | (.error e, w) =>
      if !e.IsNotExist then (.returned (some (.failedToStatTarget path e)), w)
      else
        match callGetLayerData env w layers true with
        | (.error e, w) => (.returned (some e), w)
        | (.ok layerData, w) =>
          match layerData.Layers[layerData.Layers.length - 1]? with
          | none => (.indexOutOfRange, w)
          | some base =>
            let baseLayerPath := base.Path
            let templateVHDXPath := env.Join baseLayerPath containerSandboxTemplateVHDXName
            match callOpen env w templateVHDXPath with
            | (some e, w) => (.returned (some (.failedToOpen templateVHDXPath e)), w)
            | (none, w) =>
              let (err, w) := createCopy env w path templateVHDXPath
              (.returned err, (callClose w templateVHDXPath).2)

/-! ## Reading the loop of `getLayerData` entry by entry -/

/-- One iteration of the loop of `getLayerData` (stuff.go:61-104): the layer
recorded for the entry `p`, or the error the iteration returns. -/
def layerOf (env : Env) (fs : FS) (p : String) : Except Error Layer :=
  match env.Abs p with
  | .error err => .error (.failedToAbsolutify p err)
  | .ok fullPath =>
    match Stat fs fullPath with
    | .error err => .error (.failedToStatLayer fullPath err)
    | .ok st =>
      if !st.IsDir then .error (.notADirectory fullPath)
      else
        match Stat fs (env.Join fullPath "Files") with
        | .error err =>
          if !err.IsNotExist then .error (.failedToStatFiles (env.Join fullPath "Files") err)
          else .error (.filesNotADirectory (env.Join fullPath "Files") fullPath)
        | .ok st =>
          if !st.IsDir then .error (.filesNotADirectory (env.Join fullPath "Files") fullPath)
          else
            match env.NameToGuid fullPath with
            | .error err => .error (.failedToLookupGuid fullPath err)
            | .ok guid =>
              .ok { Id := env.GuidString guid, Path := fullPath, PathType := "AbsolutePath" }

/-- The iterations of the loop in sequence, stopping at the first error. -/
def layersOf (env : Env) (fs : FS) : List String → Except Error (List Layer)
  | [] => .ok []
  | p :: rest =>
    match layerOf env fs p with
    | .error e => .error e
    | .ok l =>
      match layersOf env fs rest with
      | .error e => .error e
      | .ok ls => .ok (l :: ls)

/-- An entry `getLayerData` accepts: it resolves to an absolute path, that
path is a directory, its `Files` child is a directory, and the GUID lookup for
the path succeeds. -/
def ValidLayer (env : Env) (fs : FS) (p : String) : Prop :=
  ∃ fullPath, env.Abs p = .ok fullPath ∧
    Stat fs fullPath = .ok { IsDir := true } ∧
    Stat fs (env.Join fullPath "Files") = .ok { IsDir := true } ∧
    ∃ guid, env.NameToGuid fullPath = .ok guid

/-! ## Concrete environments -/

/-- An environment in which every external call succeeds: paths are already
absolute and joined with a slash. -/
def demoEnv : Env where
  Abs := fun p => .ok p
  Join := fun a b => a ++ "/" ++ b
  Ancestors := fun _ => []
  NameToGuid := fun p => .ok { bits := p.length }
  GuidString := fun g => String.mk (List.replicate g.bits 'f')
  SchemaV21 := { Major := 2, Minor := 1 }
  AttachVhd := fun _ => none
  DetachVhd := fun _ => none
  AttachLayerStorageFilter := fun _ _ => none
  DetachLayerStorageFilter := fun _ => none
  OpenVirtualDisk := fun _ => .ok 7
  CloseHandle := fun _ => none
  GetLayerVhdMountPath := fun _ => .ok "/volume/1"
  Println := fun _ => none
  OpenFault := fun _ => none
  MkdirFault := fun _ => none
  CreateFault := fun _ => none
  CopyFault := fun _ _ => none
  EnableProcessPrivileges := fun _ => none
  DestroyLayer := fun _ => none

/-- A namespace with nothing in it. -/
def fsEmpty : FS := fun _ => .error .notExist

/-- A namespace in which every path is a directory. -/
def fsAllDirs : FS := fun _ => .ok .dir

/-- A namespace with a base layer at `/base` (its `Files` directory and its
template disk), a scratch layer at `/scratch` holding `sandbox.vhdx`, a
directory `/nofiles` without a `Files` child, and a plain file `/file`. -/
def fsDemo : FS := fun p =>
  if p = "/base" ∨ p = "/base/Files" ∨ p = "/scratch" ∨ p = "/nofiles" then .ok .dir
  else if p = "/base/blank.vhdx" then .ok (.file [1, 2, 3])
  else if p = "/scratch/sandbox.vhdx" then .ok (.file [4, 5])
  else if p = "/file" then .ok (.file [])
  else .error .notExist

/-- An environment in which resolving the mount path fails and so do both
detach calls. -/
def envResolveFails : Env :=
  { demoEnv with
    GetLayerVhdMountPath := fun _ => .error (.other 3)
    DetachVhd := fun _ => some (.other 8)
    DetachLayerStorageFilter := fun _ => some (.other 9) }

/-- An environment in which `OpenVirtualDisk` fails and every other call
succeeds. -/
def envOpenFails : Env :=
  { demoEnv with OpenVirtualDisk := fun _ => .error (.other 2) }

/-- An environment in which `OpenVirtualDisk` fails with error 2 and the
mount-path resolution that follows fails with error 3. -/
def envOpenAndResolveFail : Env :=
  { demoEnv with
    OpenVirtualDisk := fun _ => .error (.other 2)
    GetLayerVhdMountPath := fun _ => .error (.other 3) }

/-- A namespace in which every lookup is refused with error 13. -/
def fsDenied : FS := fun _ => .error (.other 13)

/-- An environment in which the privileges cannot be enabled. -/
def envNoPrivileges : Env :=
  { demoEnv with EnableProcessPrivileges := fun _ => some (.other 1314) }

/-- An environment in which `DestroyLayer` fails. -/
def envDestroyFails : Env :=
  { demoEnv with DestroyLayer := fun _ => some (.other 32) }

/-- A world over the namespace `fs` with nothing attached, nothing logged and
nothing printed. -/
def World.fresh (fs : FS) : World :=
  { fs := fs, res := { vhds := [], filters := [] }, trace := [], stdout := [] }

/-! ## Reading the call log -/

/-- The entries logged between the world `w` and the later world `w2`. -/
def newEvents (w w2 : World) : List Event := w2.trace.drop w.trace.length

/-- The release calls of the mount sequence. -/
def isDetach : Call → Bool
  | .DetachVhd _ => true
  | .DetachLayerStorageFilter _ => true
  | _ => false

/-- The release calls issued, in the order they were issued. -/
def detachCalls (tr : List Event) : List Call :=
  (tr.map (fun ev => ev.call)).filter isDetach

/-- The release that undoes a successful acquisition. -/
def releaseOf : Event → Option Call
  | { call := .AttachVhd p, ok := true } => some (.DetachVhd p)
  | { call := .AttachLayerStorageFilter p _, ok := true } => some (.DetachLayerStorageFilter p)
  | _ => none

/-- The releases of the resources acquired in the log, last acquired first. -/
def releasesOwed (tr : List Event) : List Call :=
  (tr.filterMap releaseOf).reverse

/-- The handle `mountCommand` holds after `vhd.OpenVirtualDisk`: the one
returned, or 0 when the call failed. -/
def openedHandle (env : Env) (sandboxVHDXPath : String) : Nat :=
  match env.OpenVirtualDisk sandboxVHDXPath with
  | .ok h => h
  | .error _ => 0

/-- The accepted stack of the layers `/b` and `/aa` in `fsAllDirs`. -/
def demoStack : LayerData :=
  { SchemaVersion := { Major := 2, Minor := 1 },
    Layers := [{ Id := "ff", Path := "/b", PathType := "AbsolutePath" },
               { Id := "fff", Path := "/aa", PathType := "AbsolutePath" }] }

deriving instance DecidableEq for Except

/-! ## Lemmas on `getLayerData` -/

/-- The loop, started at index `pre.length` on a slice whose first entries are `pre`,
fills the remaining entries with the layers of `rest`, or returns the first error. -/
theorem getLayerDataLoop_eq (env : Env) (fs : FS) :
    ∀ (rest : List String) (pre : List Layer),
      getLayerDataLoop env fs rest pre.length (pre ++ List.replicate rest.length Layer.zero) =
        match layersOf env fs rest with
        | .error e => .error e
        | .ok ls => .ok (pre ++ ls)
  | [], pre => by simp [getLayerDataLoop, layersOf]
  | p :: rest, pre => by
    unfold getLayerDataLoop layersOf layerOf
    cases hA : env.Abs p with
    | error e => simp
    | ok fullPath =>
      dsimp only
      cases hS : Stat fs fullPath with
      | error e => simp
      | ok st =>
        dsimp only
        cases hd : st.IsDir with
        | false => simp
        | true =>
          simp only [Bool.not_true, Bool.false_eq_true, if_false]
          cases hF : Stat fs (env.Join fullPath "Files") with
          | error e => cases hn : e.IsNotExist <;> simp [hn]
          | ok st2 =>
            dsimp only
            cases hd2 : st2.IsDir with
            | false => simp
            | true =>
              simp only [Bool.not_true, Bool.false_eq_true, if_false]
              cases hG : env.NameToGuid fullPath with
              | error e => simp
              | ok guid =>
                have h := getLayerDataLoop_eq env fs rest
                  (pre ++ [{ Id := env.GuidString guid, Path := fullPath,
                             PathType := "AbsolutePath" }])
                simp only [List.length_append, List.length_singleton, List.append_assoc,
                  List.singleton_append] at h
                simp only [List.length_cons, List.replicate_succ, Bool.not_true,
                  Bool.false_eq_true, if_false]
                rw [List.set_append_right _ _ (Nat.le_refl _)]
                simp only [Nat.sub_self, List.set_cons_zero]
                rw [h]
                cases layersOf env fs rest <;> simp

/-- The function `getLayerData` in terms of the iterations of its loop. -/
theorem getLayerData_eq (env : Env) (fs : FS) (il : List String) (needOne : Bool) :
    getLayerData env fs il needOne =
      if needOne && il.length == 0 then .error .atLeastOneLayer
      else
        match layersOf env fs il with
        | .error e => .error e
        | .ok ls => .ok { SchemaVersion := env.SchemaV21, Layers := ls } := by
  unfold getLayerData
  have h := getLayerDataLoop_eq env fs il []
  simp only [List.length_nil, List.nil_append] at h
  rw [h]
  cases layersOf env fs il <;> simp

/-- One iteration succeeds exactly when the entry passes the four checks, and then
records the layer built from the absolute path and the GUID. -/
theorem layerOf_ok_iff (env : Env) (fs : FS) (p : String) (l : Layer) :
    layerOf env fs p = .ok l ↔
      ∃ fullPath guid, env.Abs p = .ok fullPath ∧
        Stat fs fullPath = .ok { IsDir := true } ∧
        Stat fs (env.Join fullPath "Files") = .ok { IsDir := true } ∧
        env.NameToGuid fullPath = .ok guid ∧
        l = { Id := env.GuidString guid, Path := fullPath, PathType := "AbsolutePath" } := by
  unfold layerOf
  cases hA : env.Abs p with
  | error e => simp
  | ok fullPath =>
    dsimp only
    cases hS : Stat fs fullPath with
    | error e => simp [hS]
    | ok st =>
      obtain ⟨d⟩ := st
      cases d with
      | false => simp [hS]
      | true =>
        simp only [Bool.not_true, Bool.false_eq_true, if_false]
        cases hF : Stat fs (env.Join fullPath "Files") with
        | error e => cases hn : e.IsNotExist <;> simp [hn, hF]
        | ok st2 =>
          obtain ⟨d2⟩ := st2
          cases d2 with
          | false => simp [hF]
          | true =>
            simp only [Bool.not_true, Bool.false_eq_true, if_false]
            cases hG : env.NameToGuid fullPath with
            | error e => simp [hG]
            | ok guid =>
              simp [hS, hF, hG, eq_comm]

/-- One iteration succeeds exactly on a valid layer. -/
theorem layerOf_valid_iff (env : Env) (fs : FS) (p : String) :
    (∃ l, layerOf env fs p = .ok l) ↔ ValidLayer env fs p := by
  constructor
  · rintro ⟨l, h⟩
    obtain ⟨fp, g, hA, hS, hF, hG, -⟩ := (layerOf_ok_iff env fs p l).1 h
    exact ⟨fp, hA, hS, hF, g, hG⟩
  · rintro ⟨fp, hA, hS, hF, g, hG⟩
    exact ⟨_, (layerOf_ok_iff env fs p _).2 ⟨fp, g, hA, hS, hF, hG, rfl⟩⟩

/-- The iterations succeed with `ls` exactly when each entry yields the layer at
its position. -/
theorem layersOf_ok_iff (env : Env) (fs : FS) :
    ∀ (il : List String) (ls : List Layer),
      layersOf env fs il = .ok ls ↔ List.Forall₂ (fun p l => layerOf env fs p = .ok l) il ls
  | [], ls => by
    simp only [layersOf, Except.ok.injEq, List.forall₂_nil_left_iff]
    exact eq_comm
  | p :: rest, ls => by
    have ih := layersOf_ok_iff env fs rest
    simp only [layersOf, List.forall₂_cons_left_iff, ← ih]
    cases layerOf env fs p with
    | error e => simp
    | ok l =>
      cases layersOf env fs rest with
      | error e => simp
      | ok ls2 => simp [eq_comm]

/-- The iterations succeed exactly when every entry is a valid layer. -/
theorem layersOf_succeeds_iff (env : Env) (fs : FS) :
    ∀ il : List String, (∃ ls, layersOf env fs il = .ok ls) ↔ ∀ p ∈ il, ValidLayer env fs p
  | [] => by simp [layersOf]
  | p :: rest => by
    have ih := layersOf_succeeds_iff env fs rest
    have hp := layerOf_valid_iff env fs p
    simp only [List.mem_cons, forall_eq_or_imp, ← ih, ← hp, layersOf]
    cases layerOf env fs p with
    | error e => simp
    | ok l =>
      cases layersOf env fs rest with
      | error e => simp
      | ok ls => simp

/-- After valid entries, the error of the first failing iteration is the result. -/
theorem layersOf_first_error (env : Env) (fs : FS) (p : String) (post : List String) (e : Error)
    (hp : layerOf env fs p = .error e) :
    ∀ pre : List String, (∀ q ∈ pre, ValidLayer env fs q) →
      layersOf env fs (pre ++ p :: post) = .error e
  | [], _ => by simp [layersOf, hp]
  | q :: pre, hpre => by
    have hq : ValidLayer env fs q := hpre q (List.mem_cons_self _ _)
    obtain ⟨l, hl⟩ := (layerOf_valid_iff env fs q).2 hq
    have ih := layersOf_first_error env fs p post e hp pre
      (fun r hr => hpre r (List.mem_cons_of_mem _ hr))
    simp [layersOf, hl, ih]

/-- After valid entries, `getLayerData` returns the error of the first failing
iteration. -/
theorem getLayerData_first_error (env : Env) (fs : FS) (pre : List String) (p : String)
    (post : List String) (needOne : Bool) (e : Error)
    (hpre : ∀ q ∈ pre, ValidLayer env fs q) (hp : layerOf env fs p = .error e) :
    getLayerData env fs (pre ++ p :: post) needOne = .error e := by
  rw [getLayerData_eq, layersOf_first_error env fs p post e hp pre hpre]
  simp

/-- A successful `getLayerData` pairs each entry with its layer, in order. -/
theorem getLayerData_ok_forall₂ (env : Env) (fs : FS) (il : List String) (needOne : Bool)
    (ld : LayerData) (h : getLayerData env fs il needOne = .ok ld) :
    List.Forall₂ (fun p l => layerOf env fs p = .ok l) il ld.Layers := by
  rw [getLayerData_eq] at h
  split at h
  · cases h
  · cases hl : layersOf env fs il with
    | error e => rw [hl] at h; cases h
    | ok ls =>
      rw [hl] at h
      cases h
      exact (layersOf_ok_iff env fs il ls).1 hl

/-- The paths of the recorded layers are the absolute forms of the entries. -/
theorem layerOf_forall₂_paths (env : Env) (fs : FS) (il : List String) (ls : List Layer)
    (h : List.Forall₂ (fun p l => layerOf env fs p = .ok l) il ls) :
    il.map env.Abs = ls.map (fun l => Except.ok l.Path) := by
  induction h with
  | nil => rfl
  | cons hpl _ ih =>
    obtain ⟨fp, g, hA, -, -, -, rfl⟩ := (layerOf_ok_iff env fs _ _).1 hpl
    simp [hA, ih]

/-- The paths of a returned stack are the absolute forms of the entries. -/
theorem getLayerData_abs_eq_paths (env : Env) (fs : FS) (il : List String) (needOne : Bool)
    (ld : LayerData) (h : getLayerData env fs il needOne = .ok ld) :
    il.map env.Abs = ld.Layers.map (fun l => Except.ok l.Path) :=
  layerOf_forall₂_paths env fs il ld.Layers (getLayerData_ok_forall₂ env fs il needOne ld h)

/-! ## Claims on `getLayerData` -/

/-- C1: `getLayerData` succeeds exactly when (`needOne` is false or the list is
non-empty) and every entry is a valid layer: it resolves to an absolute path,
that path exists and is a directory, its `Files` child exists and is a
directory, and the GUID lookup succeeds.  On the empty list it fails when
`needOne` is true and succeeds, with no layers, when it is false. -/
theorem getLayerData_succeeds_iff (env : Env) (fs : FS) (il : List String) (needOne : Bool) :
    ((∃ ld, getLayerData env fs il needOne = .ok ld) ↔
      ((needOne = false ∨ il ≠ []) ∧
        ∀ p ∈ il, ∃ fullPath, env.Abs p = .ok fullPath ∧
          Stat fs fullPath = .ok { IsDir := true } ∧
          Stat fs (env.Join fullPath "Files") = .ok { IsDir := true } ∧
          ∃ guid, env.NameToGuid fullPath = .ok guid)) ∧
    getLayerData env fs [] true = .error .atLeastOneLayer ∧
    getLayerData env fs [] false = .ok { SchemaVersion := env.SchemaV21, Layers := [] } := by
  refine ⟨?_, by simp [getLayerData], by simp [getLayerData, getLayerDataLoop]⟩
  rw [getLayerData_eq]
  have h := layersOf_succeeds_iff env fs il
  unfold ValidLayer at h
  rw [← h]
  cases needOne with
  | false =>
    cases layersOf env fs il <;> simp
  | true =>
    cases il with
    | nil => simp
    | cons p rest => cases layersOf env fs (p :: rest) <;> simp

/-- C2: when every earlier entry is a valid layer and the entry `p` resolves to
`fullPath`, `getLayerData` fails with a `NotFound` error if `fullPath` does not
exist or is not a directory, and with a `MissingContent` error if `fullPath` is
a directory whose `Files` child does not exist or is not a directory. -/
theorem getLayerData_first_offender (env : Env) (fs : FS) (pre : List String) (p : String)
    (post : List String) (needOne : Bool) (fullPath : String)
    (hpre : ∀ q ∈ pre, ValidLayer env fs q) (hA : env.Abs p = .ok fullPath) :
    (((∃ e, Stat fs fullPath = .error e ∧ e.IsNotExist = true) ∨
        Stat fs fullPath = .ok { IsDir := false }) →
      ∃ err, getLayerData env fs (pre ++ p :: post) needOne = .error err ∧
        err.kind = .NotFound ∧
        (err = .notADirectory fullPath ∨ ∃ e, err = .failedToStatLayer fullPath e)) ∧
    (Stat fs fullPath = .ok { IsDir := true } →
      ((∃ e, Stat fs (env.Join fullPath "Files") = .error e ∧ e.IsNotExist = true) ∨
        Stat fs (env.Join fullPath "Files") = .ok { IsDir := false }) →
      getLayerData env fs (pre ++ p :: post) needOne =
          .error (.filesNotADirectory (env.Join fullPath "Files") fullPath) ∧
        (Error.filesNotADirectory (env.Join fullPath "Files") fullPath).kind =
          .MissingContent) := by
  refine ⟨?_, ?_⟩
  · rintro (⟨e, hS, -⟩ | hS)
    · refine ⟨.failedToStatLayer fullPath e, ?_, rfl, Or.inr ⟨e, rfl⟩⟩
      apply getLayerData_first_error env fs pre p post needOne _ hpre
      simp [layerOf, hA, hS]
    · refine ⟨.notADirectory fullPath, ?_, rfl, Or.inl rfl⟩
      apply getLayerData_first_error env fs pre p post needOne _ hpre
      simp [layerOf, hA, hS]
  · intro hS hF
    refine ⟨?_, rfl⟩
    apply getLayerData_first_error env fs pre p post needOne _ hpre
    rcases hF with ⟨e, hF, hn⟩ | hF
    · simp [layerOf, hA, hS, hF, hn]
    · simp [layerOf, hA, hS, hF]

/-- Witness for C2: after the valid layer `/base`, the missing path `/gone` is
`NotFound` and the directory `/nofiles` without `Files` is `MissingContent`. -/
theorem getLayerData_first_offender_witness :
    (∃ err, getLayerData demoEnv fsDemo (["/base"] ++ "/gone" :: ["/base"]) true = .error err ∧
        err.kind = .NotFound ∧
        (err = .notADirectory "/gone" ∨ ∃ e, err = .failedToStatLayer "/gone" e)) ∧
    (getLayerData demoEnv fsDemo (["/base"] ++ "/nofiles" :: []) false =
          .error (.filesNotADirectory (demoEnv.Join "/nofiles" "Files") "/nofiles") ∧
        (Error.filesNotADirectory (demoEnv.Join "/nofiles" "Files") "/nofiles").kind =
          .MissingContent) :=
  have hbase : ∀ q ∈ ["/base"], ValidLayer demoEnv fsDemo q := by
    intro q hq
    rw [List.mem_singleton] at hq
    subst hq
    exact ⟨"/base", rfl, by decide, by decide, ⟨_, rfl⟩⟩
  ⟨(getLayerData_first_offender demoEnv fsDemo ["/base"] "/gone" ["/base"] true "/gone"
      hbase rfl).1 (Or.inl ⟨.notExist, by decide, rfl⟩),
   (getLayerData_first_offender demoEnv fsDemo ["/base"] "/nofiles" [] false "/nofiles"
      hbase rfl).2 (by decide) (Or.inl ⟨.notExist, by decide, rfl⟩)⟩

/-- C3: when `getLayerData` succeeds the stack has one layer per entry, and
layer `i` has the absolute form of `il[i]` as `Path`, the string of the GUID
the naming service gives for that path as `Id`, and `PathType` `AbsolutePath`;
the empty list gives the empty stack. -/
theorem getLayerData_layers (env : Env) (fs : FS) (il : List String) (needOne : Bool)
    (ld : LayerData) (h : getLayerData env fs il needOne = .ok ld) :
    ld.Layers.length = il.length ∧
    (∀ (i : Nat) (hi : i < il.length), ∃ fullPath guid,
      env.Abs (il.get ⟨i, hi⟩) = .ok fullPath ∧
      env.NameToGuid fullPath = .ok guid ∧
      ld.Layers[i]? =
        some { Id := env.GuidString guid, Path := fullPath, PathType := "AbsolutePath" }) ∧
    (il = [] → ld.Layers = []) := by
  have h2 := getLayerData_ok_forall₂ env fs il needOne ld h
  obtain ⟨hlen, hget⟩ := List.forall₂_iff_get.1 h2
  refine ⟨hlen.symm, ?_, ?_⟩
  · intro i hi
    have hi2 : i < ld.Layers.length := hlen ▸ hi
    obtain ⟨fp, g, hA, -, -, hG, hl⟩ := (layerOf_ok_iff env fs _ _).1 (hget i hi hi2)
    refine ⟨fp, g, hA, hG, ?_⟩
    rw [← hl, List.getElem?_eq_getElem hi2]
    rfl
  · rintro rfl
    exact List.length_eq_zero.1 (by simpa using hlen.symm)

/-- Witness for C3: the two valid layers `/b` and `/aa`, in that order. -/
theorem getLayerData_layers_witness :
    ∃ ld, getLayerData demoEnv fsAllDirs ["/b", "/aa"] true = .ok ld ∧
      (ld.Layers.length = ["/b", "/aa"].length ∧
      (∀ (i : Nat) (hi : i < ["/b", "/aa"].length), ∃ fullPath guid,
        demoEnv.Abs (["/b", "/aa"].get ⟨i, hi⟩) = .ok fullPath ∧
        demoEnv.NameToGuid fullPath = .ok guid ∧
        ld.Layers[i]? =
          some { Id := demoEnv.GuidString guid, Path := fullPath, PathType := "AbsolutePath" }) ∧
      (["/b", "/aa"] = [] → ld.Layers = [])) :=
  ⟨{ SchemaVersion := { Major := 2, Minor := 1 },
     Layers := [{ Id := "ff", Path := "/b", PathType := "AbsolutePath" },
                { Id := "fff", Path := "/aa", PathType := "AbsolutePath" }] },
   by decide,
   getLayerData_layers demoEnv fsAllDirs ["/b", "/aa"] true _ (by decide)⟩

/-- C4, as stated, fails: nothing exists at `/p`, so `/p/Files` does not exist,
yet `getLayerData` on the one entry `/p` fails with the `NotFound` error of
stuff.go:70, not with a `MissingContent` error. -/
theorem getLayerData_missing_files_counterexample :
    demoEnv.Abs "/p" = .ok "/p" ∧
    Stat fsEmpty (demoEnv.Join "/p" "Files") = .error .notExist ∧
    getLayerData demoEnv fsEmpty ["/p"] true = .error (.failedToStatLayer "/p" .notExist) ∧
    getLayerData demoEnv fsEmpty ["/p"] false = .error (.failedToStatLayer "/p" .notExist) ∧
    (Error.failedToStatLayer "/p" .notExist).kind ≠ .MissingContent := by
  decide

/-- C4, amended: for an entry that resolves to a directory, if its `Files`
child does not exist then `getLayerData` on that one entry fails with the
`MissingContent` error; if the resolved path itself does not exist it fails
with the `NotFound` error instead. -/
theorem getLayerData_missing_files (env : Env) (fs : FS) (p : String) (needOne : Bool)
    (fullPath : String) (e : ExtErr) (hA : env.Abs p = .ok fullPath)
    (hF : Stat fs (env.Join fullPath "Files") = .error e) (hn : e.IsNotExist = true) :
    (Stat fs fullPath = .ok { IsDir := true } →
      getLayerData env fs [p] needOne =
          .error (.filesNotADirectory (env.Join fullPath "Files") fullPath) ∧
        (Error.filesNotADirectory (env.Join fullPath "Files") fullPath).kind =
          .MissingContent) ∧
    (∀ e2, Stat fs fullPath = .error e2 →
      getLayerData env fs [p] needOne = .error (.failedToStatLayer fullPath e2) ∧
        (Error.failedToStatLayer fullPath e2).kind = .NotFound) := by
  refine ⟨fun hS => ⟨?_, rfl⟩, fun e2 hS => ⟨?_, rfl⟩⟩
  · apply getLayerData_first_error env fs [] p [] needOne _ (by simp)
    simp [layerOf, hA, hS, hF, hn]
  · apply getLayerData_first_error env fs [] p [] needOne _ (by simp)
    simp [layerOf, hA, hS]

/-- Witness for C4 amended: the directory `/nofiles` has no `Files` child. -/
theorem getLayerData_missing_files_witness :
    getLayerData demoEnv fsDemo ["/nofiles"] true =
        .error (.filesNotADirectory (demoEnv.Join "/nofiles" "Files") "/nofiles") ∧
      (Error.filesNotADirectory (demoEnv.Join "/nofiles" "Files") "/nofiles").kind =
        .MissingContent :=
  (getLayerData_missing_files demoEnv fsDemo "/nofiles" true "/nofiles" .notExist rfl
    (by decide) rfl).1 (by decide)

/-- C5, as stated, fails: the list that names the valid layer `/a` twice is
accepted, and the two layers returned have the same `Path`. -/
theorem getLayerData_duplicate_paths_counterexample :
    ∃ ld, getLayerData demoEnv fsAllDirs ["/a", "/a"] true = .ok ld ∧
      ld.Layers.map (fun l => l.Path) = ["/a", "/a"] ∧
      ¬ (ld.Layers.map (fun l => l.Path)).Nodup :=
  ⟨{ SchemaVersion := { Major := 2, Minor := 1 },
     Layers := [{ Id := "ff", Path := "/a", PathType := "AbsolutePath" },
                { Id := "ff", Path := "/a", PathType := "AbsolutePath" }] },
   by decide, by decide, by decide⟩

/-- C5, amended: when `getLayerData` succeeds, the `Path` fields of the layers
are the absolute forms of the entries, in order; they are pairwise distinct
exactly when the absolute forms of the entries are. -/
theorem getLayerData_paths_nodup_iff (env : Env) (fs : FS) (il : List String) (needOne : Bool)
    (ld : LayerData) (h : getLayerData env fs il needOne = .ok ld) :
    il.map env.Abs = (ld.Layers.map (fun l => l.Path)).map Except.ok ∧
    ((ld.Layers.map (fun l => l.Path)).Nodup ↔ (il.map env.Abs).Nodup) := by
  have hp : il.map env.Abs = (ld.Layers.map (fun l => l.Path)).map Except.ok := by
    rw [getLayerData_abs_eq_paths env fs il needOne ld h, List.map_map]
    rfl
  refine ⟨hp, ?_⟩
  rw [hp]
  exact (List.nodup_map_iff (fun a b hab => by cases hab; rfl)).symm

/-- Witness for C5 amended: the two distinct valid layers `/b` and `/aa` give
two distinct paths. -/
theorem getLayerData_paths_nodup_iff_witness :
    ["/b", "/aa"].map demoEnv.Abs = (demoStack.Layers.map (fun l => l.Path)).map Except.ok ∧
    ((demoStack.Layers.map (fun l => l.Path)).Nodup ↔ (["/b", "/aa"].map demoEnv.Abs).Nodup) :=
  getLayerData_paths_nodup_iff demoEnv fsAllDirs ["/b", "/aa"] true demoStack (by decide)

/-! ## Claims on `mount` and `unmount` -/

/-- The detach calls mount issues are the releases of what it acquired, last
acquired first, when it returns an error, and none when it returns nil. -/
theorem mountAction_detach_law (env : Env) (arg0 : String) (layers : List String) (w : World) :
    detachCalls (newEvents w (mountAction env arg0 layers w).2) =
      if (mountAction env arg0 layers w).1.isSome
      then releasesOwed (newEvents w (mountAction env arg0 layers w).2) else [] := by
  cases hA : env.Abs arg0 with
  | error e => simp [mountAction, hA, detachCalls, releasesOwed, newEvents]
  | ok path =>
    cases hS : Stat w.fs (env.Join path containerSandboxVHDXName) with
    | error e => simp [mountAction, mountFilter, mountResolve, callStat, callAttachVhd, callDetachVhd,
            callGetLayerData, callAttachLayerStorageFilter, callDetachLayerStorageFilter,
            callOpenVirtualDisk, callCloseHandle, callGetLayerVhdMountPath, callPrintln,
            World.log, Except.toBool, hA, hS, detachCalls, releasesOwed, newEvents, releaseOf, isDetach]
    | ok st =>
      cases hV : env.AttachVhd (env.Join path containerSandboxVHDXName) with
      | some e => simp [mountAction, mountFilter, mountResolve, callStat, callAttachVhd, callDetachVhd,
            callGetLayerData, callAttachLayerStorageFilter, callDetachLayerStorageFilter,
            callOpenVirtualDisk, callCloseHandle, callGetLayerVhdMountPath, callPrintln,
            World.log, Except.toBool, hA, hS, hV, detachCalls, releasesOwed, newEvents, releaseOf, isDetach]
      | none =>
        cases hL : getLayerData env w.fs layers true with
        | error e =>
          cases hDV : env.DetachVhd (env.Join path containerSandboxVHDXName) <;>
          simp [mountAction, mountFilter, mountResolve, callStat, callAttachVhd, callDetachVhd,
            callGetLayerData, callAttachLayerStorageFilter, callDetachLayerStorageFilter,
            callOpenVirtualDisk, callCloseHandle, callGetLayerVhdMountPath, callPrintln,
            World.log, Except.toBool, hA, hS, hV, hL, hDV, detachCalls, releasesOwed, newEvents, releaseOf, isDetach]
        | ok ld =>
          cases hF : env.AttachLayerStorageFilter path ld with
          | some e =>
            cases hDV : env.DetachVhd (env.Join path containerSandboxVHDXName) <;>
            simp [mountAction, mountFilter, mountResolve, callStat, callAttachVhd, callDetachVhd,
            callGetLayerData, callAttachLayerStorageFilter, callDetachLayerStorageFilter,
            callOpenVirtualDisk, callCloseHandle, callGetLayerVhdMountPath, callPrintln,
            World.log, Except.toBool, hA, hS, hV, hL, hF, hDV, detachCalls, releasesOwed, newEvents, releaseOf, isDetach]
          | none =>
            cases hG : env.GetLayerVhdMountPath
                (openedHandle env (env.Join path containerSandboxVHDXName)) with
            | error eg =>
              cases hO : env.OpenVirtualDisk (env.Join path containerSandboxVHDXName) <;>
              cases hDF : env.DetachLayerStorageFilter path <;>
              cases hDV : env.DetachVhd (env.Join path containerSandboxVHDXName) <;>
              simp [openedHandle, callOpenVirtualDisk, hO] at hG <;>
              simp [mountAction, mountFilter, mountResolve, callStat, callAttachVhd, callDetachVhd,
            callGetLayerData, callAttachLayerStorageFilter, callDetachLayerStorageFilter,
            callOpenVirtualDisk, callCloseHandle, callGetLayerVhdMountPath, callPrintln,
            World.log, Except.toBool, hA, hS, hV, hL, hF, hG, hO, hDF, hDV, detachCalls, releasesOwed, newEvents, releaseOf, isDetach]
            | ok mp =>
              cases hP : env.Println mp with
              | some ep =>
                cases hO : env.OpenVirtualDisk (env.Join path containerSandboxVHDXName) <;>
                cases hDF : env.DetachLayerStorageFilter path <;>
                cases hDV : env.DetachVhd (env.Join path containerSandboxVHDXName) <;>
                simp [openedHandle, callOpenVirtualDisk, hO] at hG <;>
                simp [mountAction, mountFilter, mountResolve, callStat, callAttachVhd, callDetachVhd,
            callGetLayerData, callAttachLayerStorageFilter, callDetachLayerStorageFilter,
            callOpenVirtualDisk, callCloseHandle, callGetLayerVhdMountPath, callPrintln,
            World.log, Except.toBool, hA, hS, hV, hL, hF, hG, hP, hO, hDF, hDV, detachCalls, releasesOwed, newEvents, releaseOf, isDetach]
              | none =>
                cases hO : env.OpenVirtualDisk (env.Join path containerSandboxVHDXName) <;>
                simp [openedHandle, callOpenVirtualDisk, hO] at hG <;>
                simp [mountAction, mountFilter, mountResolve, callStat, callAttachVhd, callDetachVhd,
            callGetLayerData, callAttachLayerStorageFilter, callDetachLayerStorageFilter,
            callOpenVirtualDisk, callCloseHandle, callGetLayerVhdMountPath, callPrintln,
            World.log, Except.toBool, hA, hS, hV, hL, hF, hG, hP, hO, detachCalls, releasesOwed, newEvents, releaseOf, isDetach]

/-- C6: in the mount action the release calls issued are exactly the releases
of the resources acquired, last acquired first, when mount fails, and none
when it succeeds.  In particular: no detach call if `AttachVhd` fails; only
`DetachVhd` of the scratch disk if validation of the layers or
`AttachLayerStorageFilter` fails; `DetachLayerStorageFilter` then `DetachVhd`
if resolving the mount path fails; no detach call when mount succeeds. -/
theorem mountAction_releases (env : Env) (arg0 : String) (layers : List String) (w : World)
    (path : String) (st : FileInfo) (hA : env.Abs arg0 = .ok path)
    (hS : Stat w.fs (env.Join path containerSandboxVHDXName) = .ok st) :
    (detachCalls (newEvents w (mountAction env arg0 layers w).2) =
      if (mountAction env arg0 layers w).1.isSome
      then releasesOwed (newEvents w (mountAction env arg0 layers w).2) else []) ∧
    (∀ e, env.AttachVhd (env.Join path containerSandboxVHDXName) = some e →
      detachCalls (newEvents w (mountAction env arg0 layers w).2) = []) ∧
    (env.AttachVhd (env.Join path containerSandboxVHDXName) = none →
      ∀ e, getLayerData env w.fs layers true = .error e →
      detachCalls (newEvents w (mountAction env arg0 layers w).2) =
        [.DetachVhd (env.Join path containerSandboxVHDXName)]) ∧
    (env.AttachVhd (env.Join path containerSandboxVHDXName) = none →
      ∀ ld e, getLayerData env w.fs layers true = .ok ld →
      env.AttachLayerStorageFilter path ld = some e →
      detachCalls (newEvents w (mountAction env arg0 layers w).2) =
        [.DetachVhd (env.Join path containerSandboxVHDXName)]) ∧
    (env.AttachVhd (env.Join path containerSandboxVHDXName) = none →
      ∀ ld e, getLayerData env w.fs layers true = .ok ld →
      env.AttachLayerStorageFilter path ld = none →
      env.GetLayerVhdMountPath (openedHandle env (env.Join path containerSandboxVHDXName)) =
        .error e →
      detachCalls (newEvents w (mountAction env arg0 layers w).2) =
        [.DetachLayerStorageFilter path,
         .DetachVhd (env.Join path containerSandboxVHDXName)]) ∧
    ((mountAction env arg0 layers w).1 = none →
      detachCalls (newEvents w (mountAction env arg0 layers w).2) = []) := by
  refine ⟨mountAction_detach_law env arg0 layers w, ?_, ?_, ?_, ?_, ?_⟩
  · intro e hV
    simp [mountAction, mountFilter, mountResolve, callStat, callAttachVhd, callDetachVhd,
      callGetLayerData, callAttachLayerStorageFilter, callDetachLayerStorageFilter,
      callOpenVirtualDisk, callCloseHandle, callGetLayerVhdMountPath, callPrintln,
      World.log, Except.toBool, hA, hS, hV, detachCalls, releasesOwed, newEvents, releaseOf, isDetach]
  · intro hV e hL
    cases hDV : env.DetachVhd (env.Join path containerSandboxVHDXName) <;>
    simp [mountAction, mountFilter, mountResolve, callStat, callAttachVhd, callDetachVhd,
      callGetLayerData, callAttachLayerStorageFilter, callDetachLayerStorageFilter,
      callOpenVirtualDisk, callCloseHandle, callGetLayerVhdMountPath, callPrintln,
      World.log, Except.toBool, hA, hS, hV, hL, hDV, detachCalls, releasesOwed, newEvents, releaseOf, isDetach]
  · intro hV ld e hL hF
    cases hDV : env.DetachVhd (env.Join path containerSandboxVHDXName) <;>
    simp [mountAction, mountFilter, mountResolve, callStat, callAttachVhd, callDetachVhd,
      callGetLayerData, callAttachLayerStorageFilter, callDetachLayerStorageFilter,
      callOpenVirtualDisk, callCloseHandle, callGetLayerVhdMountPath, callPrintln,
      World.log, Except.toBool, hA, hS, hV, hL, hF, hDV, detachCalls, releasesOwed, newEvents, releaseOf, isDetach]
  · intro hV ld e hL hF hG
    cases hO : env.OpenVirtualDisk (env.Join path containerSandboxVHDXName) <;>
    cases hDF : env.DetachLayerStorageFilter path <;>
    cases hDV : env.DetachVhd (env.Join path containerSandboxVHDXName) <;>
    simp [openedHandle, callOpenVirtualDisk, hO] at hG <;>
    simp [mountAction, mountFilter, mountResolve, callStat, callAttachVhd, callDetachVhd,
      callGetLayerData, callAttachLayerStorageFilter, callDetachLayerStorageFilter,
      callOpenVirtualDisk, callCloseHandle, callGetLayerVhdMountPath, callPrintln,
      World.log, Except.toBool, hA, hS, hV, hL, hF, hG, hO, hDF, hDV, detachCalls, releasesOwed, newEvents, releaseOf, isDetach]
  · intro h
    rw [mountAction_detach_law env arg0 layers w, h]
    rfl

/-- Witness for C6: resolving the mount path fails on the scratch layer
`/scratch` over `/base`; the filter is detached, then the disk. -/
theorem mountAction_releases_witness :
    detachCalls (newEvents (World.fresh fsDemo)
        (mountAction envResolveFails "/scratch" ["/base"] (World.fresh fsDemo)).2) =
      [.DetachLayerStorageFilter "/scratch", .DetachVhd "/scratch/sandbox.vhdx"] :=
  (mountAction_releases envResolveFails "/scratch" ["/base"] (World.fresh fsDemo) "/scratch"
    { IsDir := false } rfl (by decide)).2.2.2.2.1 rfl
    { SchemaVersion := { Major := 2, Minor := 1 },
      Layers := [{ Id := "fffff", Path := "/base", PathType := "AbsolutePath" }] }
    (.other 3) (by decide) rfl rfl

/-- One iteration does not depend on the outcomes of the detach calls. -/
theorem layerOf_detach_irrelevant (env : Env) (dv df : String → Option ExtErr) (fs : FS)
    (p : String) :
    layerOf { env with DetachVhd := dv, DetachLayerStorageFilter := df } fs p =
      layerOf env fs p := rfl

/-- The iterations do not depend on the outcomes of the detach calls. -/
theorem layersOf_detach_irrelevant (env : Env) (dv df : String → Option ExtErr) (fs : FS) :
    ∀ il : List String,
      layersOf { env with DetachVhd := dv, DetachLayerStorageFilter := df } fs il =
        layersOf env fs il
  | [] => rfl
  | p :: rest => by
    simp only [layersOf, layerOf_detach_irrelevant, layersOf_detach_irrelevant env dv df fs rest]

/-- The function `getLayerData` does not depend on the outcomes of the detach
calls. -/
theorem getLayerData_detach_irrelevant (env : Env) (dv df : String → Option ExtErr) (fs : FS)
    (il : List String) (needOne : Bool) :
    getLayerData { env with DetachVhd := dv, DetachLayerStorageFilter := df } fs il needOne =
      getLayerData env fs il needOne := by
  rw [getLayerData_eq, getLayerData_eq, layersOf_detach_irrelevant]

/-- The error mount returns does not depend on the outcomes of the detach calls. -/
theorem mountAction_error_detach_irrelevant (env : Env) (dv df : String → Option ExtErr)
    (arg0 : String) (layers : List String) (w : World) :
    (mountAction { env with DetachVhd := dv, DetachLayerStorageFilter := df } arg0 layers w).1 =
      (mountAction env arg0 layers w).1 := by
  cases hA : env.Abs arg0 with
  | error e => simp [mountAction, hA]
  | ok path =>
    cases hS : Stat w.fs (env.Join path containerSandboxVHDXName) with
    | error e => simp [mountAction, mountFilter, mountResolve, callStat, callAttachVhd, callDetachVhd,
      callGetLayerData, callAttachLayerStorageFilter, callDetachLayerStorageFilter,
      callOpenVirtualDisk, callCloseHandle, callGetLayerVhdMountPath, callPrintln,
      World.log, Except.toBool, hA, hS]
    | ok st =>
      cases hV : env.AttachVhd (env.Join path containerSandboxVHDXName) with
      | some e => simp [mountAction, mountFilter, mountResolve, callStat, callAttachVhd, callDetachVhd,
      callGetLayerData, callAttachLayerStorageFilter, callDetachLayerStorageFilter,
      callOpenVirtualDisk, callCloseHandle, callGetLayerVhdMountPath, callPrintln,
      World.log, Except.toBool, hA, hS, hV]
      | none =>
        cases hL : getLayerData env w.fs layers true with
        | error e =>
          simp [mountAction, mountFilter, mountResolve, callStat, callAttachVhd, callDetachVhd,
      callGetLayerData, callAttachLayerStorageFilter, callDetachLayerStorageFilter,
      callOpenVirtualDisk, callCloseHandle, callGetLayerVhdMountPath, callPrintln,
      World.log, Except.toBool, hA, hS, hV, hL, getLayerData_detach_irrelevant]
        | ok ld =>
          cases hF : env.AttachLayerStorageFilter path ld with
          | some e =>
            simp [mountAction, mountFilter, mountResolve, callStat, callAttachVhd, callDetachVhd,
      callGetLayerData, callAttachLayerStorageFilter, callDetachLayerStorageFilter,
      callOpenVirtualDisk, callCloseHandle, callGetLayerVhdMountPath, callPrintln,
      World.log, Except.toBool, hA, hS, hV, hL, hF, getLayerData_detach_irrelevant]
          | none =>
            cases hG : env.GetLayerVhdMountPath
                (openedHandle env (env.Join path containerSandboxVHDXName)) with
            | error eg =>
              cases hO : env.OpenVirtualDisk (env.Join path containerSandboxVHDXName) <;>
              simp [openedHandle, callOpenVirtualDisk, hO] at hG <;>
              simp [mountAction, mountFilter, mountResolve, callStat, callAttachVhd, callDetachVhd,
      callGetLayerData, callAttachLayerStorageFilter, callDetachLayerStorageFilter,
      callOpenVirtualDisk, callCloseHandle, callGetLayerVhdMountPath, callPrintln,
      World.log, Except.toBool, hA, hS, hV, hL, hF, hG, hO, getLayerData_detach_irrelevant]
            | ok mp =>
              cases hP : env.Println mp <;>
              cases hO : env.OpenVirtualDisk (env.Join path containerSandboxVHDXName) <;>
              simp [openedHandle, callOpenVirtualDisk, hO] at hG <;>
              simp [mountAction, mountFilter, mountResolve, callStat, callAttachVhd, callDetachVhd,
      callGetLayerData, callAttachLayerStorageFilter, callDetachLayerStorageFilter,
      callOpenVirtualDisk, callCloseHandle, callGetLayerVhdMountPath, callPrintln,
      World.log, Except.toBool, hA, hS, hV, hL, hF, hG, hP, hO, getLayerData_detach_irrelevant]

/-- When mount returns nil, every checked call succeeded. -/
theorem mountAction_none_inv (env : Env) (arg0 : String) (layers : List String) (w : World)
    (h : (mountAction env arg0 layers w).1 = none) :
    ∃ path st ld mp, env.Abs arg0 = .ok path ∧
      Stat w.fs (env.Join path containerSandboxVHDXName) = .ok st ∧
      env.AttachVhd (env.Join path containerSandboxVHDXName) = none ∧
      getLayerData env w.fs layers true = .ok ld ∧
      env.AttachLayerStorageFilter path ld = none ∧
      env.GetLayerVhdMountPath (openedHandle env (env.Join path containerSandboxVHDXName)) =
        .ok mp ∧
      env.Println mp = none := by
  cases hA : env.Abs arg0 with
  | error e => simp [mountAction, hA] at h
  | ok path =>
    cases hS : Stat w.fs (env.Join path containerSandboxVHDXName) with
    | error e => simp [mountAction, mountFilter, mountResolve, callStat, callAttachVhd, callDetachVhd,
      callGetLayerData, callAttachLayerStorageFilter, callDetachLayerStorageFilter,
      callOpenVirtualDisk, callCloseHandle, callGetLayerVhdMountPath, callPrintln,
      World.log, Except.toBool, hA, hS] at h
    | ok st =>
      cases hV : env.AttachVhd (env.Join path containerSandboxVHDXName) with
      | some e => simp [mountAction, mountFilter, mountResolve, callStat, callAttachVhd, callDetachVhd,
      callGetLayerData, callAttachLayerStorageFilter, callDetachLayerStorageFilter,
      callOpenVirtualDisk, callCloseHandle, callGetLayerVhdMountPath, callPrintln,
      World.log, Except.toBool, hA, hS, hV] at h
      | none =>
        cases hL : getLayerData env w.fs layers true with
        | error e => simp [mountAction, mountFilter, mountResolve, callStat, callAttachVhd, callDetachVhd,
      callGetLayerData, callAttachLayerStorageFilter, callDetachLayerStorageFilter,
      callOpenVirtualDisk, callCloseHandle, callGetLayerVhdMountPath, callPrintln,
      World.log, Except.toBool, hA, hS, hV, hL] at h
        | ok ld =>
          cases hF : env.AttachLayerStorageFilter path ld with
          | some e => simp [mountAction, mountFilter, mountResolve, callStat, callAttachVhd, callDetachVhd,
      callGetLayerData, callAttachLayerStorageFilter, callDetachLayerStorageFilter,
      callOpenVirtualDisk, callCloseHandle, callGetLayerVhdMountPath, callPrintln,
      World.log, Except.toBool, hA, hS, hV, hL, hF] at h
          | none =>
            cases hG : env.GetLayerVhdMountPath
                (openedHandle env (env.Join path containerSandboxVHDXName)) with
            | error eg =>
              exfalso
              cases hO : env.OpenVirtualDisk (env.Join path containerSandboxVHDXName) <;>
              simp [openedHandle, callOpenVirtualDisk, hO] at hG <;>
              simp [mountAction, mountFilter, mountResolve, callStat, callAttachVhd, callDetachVhd,
      callGetLayerData, callAttachLayerStorageFilter, callDetachLayerStorageFilter,
      callOpenVirtualDisk, callCloseHandle, callGetLayerVhdMountPath, callPrintln,
      World.log, Except.toBool, hA, hS, hV, hL, hF, hG, hO] at h
            | ok mp =>
              cases hP : env.Println mp with
              | some ep =>
                exfalso
                cases hO : env.OpenVirtualDisk (env.Join path containerSandboxVHDXName) <;>
                simp [openedHandle, callOpenVirtualDisk, hO] at hG <;>
                simp [mountAction, mountFilter, mountResolve, callStat, callAttachVhd, callDetachVhd,
      callGetLayerData, callAttachLayerStorageFilter, callDetachLayerStorageFilter,
      callOpenVirtualDisk, callCloseHandle, callGetLayerVhdMountPath, callPrintln,
      World.log, Except.toBool, hA, hS, hV, hL, hF, hG, hP, hO] at h
              | none => exact ⟨path, st, ld, mp, rfl, hS, hV, rfl, hF, hG, hP⟩

/-- When every checked call succeeds, mount returns nil, prints the mount path,
and leaves the disk and the filter attached, whatever `OpenVirtualDisk` gave. -/
theorem mountAction_success (env : Env) (arg0 : String) (layers : List String) (w : World)
    (path : String) (st : FileInfo) (ld : LayerData) (mp : String)
    (hA : env.Abs arg0 = .ok path)
    (hS : Stat w.fs (env.Join path containerSandboxVHDXName) = .ok st)
    (hV : env.AttachVhd (env.Join path containerSandboxVHDXName) = none)
    (hL : getLayerData env w.fs layers true = .ok ld)
    (hF : env.AttachLayerStorageFilter path ld = none)
    (hG : env.GetLayerVhdMountPath (openedHandle env (env.Join path containerSandboxVHDXName)) =
      .ok mp)
    (hP : env.Println mp = none) :
    (mountAction env arg0 layers w).1 = none ∧
    (mountAction env arg0 layers w).2.stdout = w.stdout ++ [mp] ∧
    (mountAction env arg0 layers w).2.res =
      { vhds := env.Join path containerSandboxVHDXName :: w.res.vhds,
        filters := path :: w.res.filters } ∧
    (mountAction env arg0 layers w).2.fs = w.fs := by
  cases hO : env.OpenVirtualDisk (env.Join path containerSandboxVHDXName) <;>
  simp [openedHandle, callOpenVirtualDisk, hO] at hG <;>
  simp [mountAction, mountFilter, mountResolve, callStat, callAttachVhd, callDetachVhd,
      callGetLayerData, callAttachLayerStorageFilter, callDetachLayerStorageFilter,
      callOpenVirtualDisk, callCloseHandle, callGetLayerVhdMountPath, callPrintln,
      World.log, Except.toBool, hA, hS, hV, hL, hF, hG, hP, hO]

/-- The errors of the rollback are swallowed: once the virtual disk is
attached, a failure of one of the four checked steps (validating the layers,
attaching the filter, resolving the mount path, printing it) is returned as it
is, and replacing the outcomes of `DetachLayerStorageFilter` and `DetachVhd`
by any others never changes the error returned.  The step `OpenVirtualDisk`
is not among the checked ones. -/
theorem mountAction_rollback_errors_swallowed (env : Env) (arg0 : String)
    (layers : List String) (w : World) (path : String) (st : FileInfo)
    (hA : env.Abs arg0 = .ok path)
    (hS : Stat w.fs (env.Join path containerSandboxVHDXName) = .ok st)
    (hV : env.AttachVhd (env.Join path containerSandboxVHDXName) = none) :
    (∀ e, getLayerData env w.fs layers true = .error e →
      (mountAction env arg0 layers w).1 = some e) ∧
    (∀ ld e, getLayerData env w.fs layers true = .ok ld →
      env.AttachLayerStorageFilter path ld = some e →
      (mountAction env arg0 layers w).1 = some (.ext e)) ∧
    (∀ ld e, getLayerData env w.fs layers true = .ok ld →
      env.AttachLayerStorageFilter path ld = none →
      env.GetLayerVhdMountPath (openedHandle env (env.Join path containerSandboxVHDXName)) =
        .error e →
      (mountAction env arg0 layers w).1 = some (.ext e)) ∧
    (∀ ld mp e, getLayerData env w.fs layers true = .ok ld →
      env.AttachLayerStorageFilter path ld = none →
      env.GetLayerVhdMountPath (openedHandle env (env.Join path containerSandboxVHDXName)) =
        .ok mp →
      env.Println mp = some e →
      (mountAction env arg0 layers w).1 = some (.ext e)) ∧
    (∀ dv df : String → Option ExtErr,
      (mountAction { env with DetachVhd := dv, DetachLayerStorageFilter := df }
        arg0 layers w).1 = (mountAction env arg0 layers w).1) := by
  refine ⟨?_, ?_, ?_, ?_, fun dv df => mountAction_error_detach_irrelevant env dv df arg0 layers w⟩
  · intro e hL
    simp [mountAction, mountFilter, mountResolve, callStat, callAttachVhd, callDetachVhd,
      callGetLayerData, callAttachLayerStorageFilter, callDetachLayerStorageFilter,
      callOpenVirtualDisk, callCloseHandle, callGetLayerVhdMountPath, callPrintln,
      World.log, Except.toBool, hA, hS, hV, hL]
  · intro ld e hL hF
    simp [mountAction, mountFilter, mountResolve, callStat, callAttachVhd, callDetachVhd,
      callGetLayerData, callAttachLayerStorageFilter, callDetachLayerStorageFilter,
      callOpenVirtualDisk, callCloseHandle, callGetLayerVhdMountPath, callPrintln,
      World.log, Except.toBool, hA, hS, hV, hL, hF]
  · intro ld e hL hF hG
    cases hO : env.OpenVirtualDisk (env.Join path containerSandboxVHDXName) <;>
    simp [openedHandle, callOpenVirtualDisk, hO] at hG <;>
    simp [mountAction, mountFilter, mountResolve, callStat, callAttachVhd, callDetachVhd,
      callGetLayerData, callAttachLayerStorageFilter, callDetachLayerStorageFilter,
      callOpenVirtualDisk, callCloseHandle, callGetLayerVhdMountPath, callPrintln,
      World.log, Except.toBool, hA, hS, hV, hL, hF, hG, hO]
  · intro ld mp e hL hF hG hP
    cases hO : env.OpenVirtualDisk (env.Join path containerSandboxVHDXName) <;>
    simp [openedHandle, callOpenVirtualDisk, hO] at hG <;>
    simp [mountAction, mountFilter, mountResolve, callStat, callAttachVhd, callDetachVhd,
      callGetLayerData, callAttachLayerStorageFilter, callDetachLayerStorageFilter,
      callOpenVirtualDisk, callCloseHandle, callGetLayerVhdMountPath, callPrintln,
      World.log, Except.toBool, hA, hS, hV, hL, hF, hG, hP, hO]

/-- An instance: resolving the mount path fails with error 3 and both detach
calls fail (errors 9 and 8); mount returns error 3. -/
theorem mountAction_rollback_errors_swallowed_example :
    (mountAction envResolveFails "/scratch" ["/base"] (World.fresh fsDemo)).1 =
      some (.ext (.other 3)) :=
  (mountAction_rollback_errors_swallowed envResolveFails "/scratch" ["/base"]
    (World.fresh fsDemo) "/scratch" { IsDir := false } rfl (by decide) rfl).2.2.1
    { SchemaVersion := { Major := 2, Minor := 1 },
      Layers := [{ Id := "fffff", Path := "/base", PathType := "AbsolutePath" }] }
    (.other 3) (by decide) rfl rfl

/-- C7, what the code does: `OpenVirtualDisk` (mount.go:76) is a step after
the virtual disk is attached, and its failure never reaches the caller.  When
it fails, mount returns nil with no detach call if the resolution on the handle
0 and the print succeed, and otherwise the error of that later resolution or
print, not the error of `OpenVirtualDisk`. -/
theorem mountAction_open_failure_unreported (env : Env) (arg0 : String)
    (layers : List String) (w : World) (path : String) (st : FileInfo) (ld : LayerData)
    (e : ExtErr) (hA : env.Abs arg0 = .ok path)
    (hS : Stat w.fs (env.Join path containerSandboxVHDXName) = .ok st)
    (hV : env.AttachVhd (env.Join path containerSandboxVHDXName) = none)
    (hL : getLayerData env w.fs layers true = .ok ld)
    (hF : env.AttachLayerStorageFilter path ld = none)
    (hO : env.OpenVirtualDisk (env.Join path containerSandboxVHDXName) = .error e) :
    (∀ mp, env.GetLayerVhdMountPath 0 = .ok mp → env.Println mp = none →
      (mountAction env arg0 layers w).1 = none ∧
      detachCalls (newEvents w (mountAction env arg0 layers w).2) = []) ∧
    (∀ e2, env.GetLayerVhdMountPath 0 = .error e2 →
      (mountAction env arg0 layers w).1 = some (.ext e2)) ∧
    (∀ mp e3, env.GetLayerVhdMountPath 0 = .ok mp → env.Println mp = some e3 →
      (mountAction env arg0 layers w).1 = some (.ext e3)) := by
  refine ⟨fun mp hG hP => ⟨?_, ?_⟩, fun e2 hG => ?_, fun mp e3 hG hP => ?_⟩
  · simp [mountAction, mountFilter, mountResolve, callStat, callAttachVhd, callDetachVhd,
      callGetLayerData, callAttachLayerStorageFilter, callDetachLayerStorageFilter,
      callOpenVirtualDisk, callCloseHandle, callGetLayerVhdMountPath, callPrintln,
      World.log, Except.toBool, hA, hS, hV, hL, hF, hO, hG, hP]
  · simp [mountAction, mountFilter, mountResolve, callStat, callAttachVhd, callDetachVhd,
      callGetLayerData, callAttachLayerStorageFilter, callDetachLayerStorageFilter,
      callOpenVirtualDisk, callCloseHandle, callGetLayerVhdMountPath, callPrintln,
      World.log, Except.toBool, hA, hS, hV, hL, hF, hO, hG, hP, detachCalls, newEvents, isDetach]
  · simp [mountAction, mountFilter, mountResolve, callStat, callAttachVhd, callDetachVhd,
      callGetLayerData, callAttachLayerStorageFilter, callDetachLayerStorageFilter,
      callOpenVirtualDisk, callCloseHandle, callGetLayerVhdMountPath, callPrintln,
      World.log, Except.toBool, hA, hS, hV, hL, hF, hO, hG]
  · simp [mountAction, mountFilter, mountResolve, callStat, callAttachVhd, callDetachVhd,
      callGetLayerData, callAttachLayerStorageFilter, callDetachLayerStorageFilter,
      callOpenVirtualDisk, callCloseHandle, callGetLayerVhdMountPath, callPrintln,
      World.log, Except.toBool, hA, hS, hV, hL, hF, hO, hG, hP]

/-- C7 at concrete inputs: on `/scratch` over `/base`, `OpenVirtualDisk` fails
with error 2; when every later call succeeds mount returns nil and issues no
detach call, and when the resolution then fails with error 3 mount returns
error 3, so error 2 is returned in neither case. -/
theorem mountAction_open_failure_unreported_witness :
    ((mountAction envOpenFails "/scratch" ["/base"] (World.fresh fsDemo)).1 = none ∧
      detachCalls (newEvents (World.fresh fsDemo)
        (mountAction envOpenFails "/scratch" ["/base"] (World.fresh fsDemo)).2) = []) ∧
    (mountAction envOpenAndResolveFail "/scratch" ["/base"] (World.fresh fsDemo)).1 =
      some (.ext (.other 3)) ∧
    envOpenFails.OpenVirtualDisk "/scratch/sandbox.vhdx" = .error (.other 2) ∧
    envOpenAndResolveFail.OpenVirtualDisk "/scratch/sandbox.vhdx" = .error (.other 2) :=
  ⟨(mountAction_open_failure_unreported envOpenFails "/scratch" ["/base"]
      (World.fresh fsDemo) "/scratch" { IsDir := false }
      { SchemaVersion := { Major := 2, Minor := 1 },
        Layers := [{ Id := "fffff", Path := "/base", PathType := "AbsolutePath" }] }
      (.other 2) rfl (by decide) rfl (by decide) rfl rfl).1 "/volume/1" rfl rfl,
   (mountAction_open_failure_unreported envOpenAndResolveFail "/scratch" ["/base"]
      (World.fresh fsDemo) "/scratch" { IsDir := false }
      { SchemaVersion := { Major := 2, Minor := 1 },
        Layers := [{ Id := "fffff", Path := "/base", PathType := "AbsolutePath" }] }
      (.other 2) rfl (by decide) rfl (by decide) rfl rfl).2.1 (.other 3) rfl,
   rfl, rfl⟩

/-- C8, what the code does: the error of `OpenVirtualDisk` is never read.  When
the call fails and the mount-path resolution on the handle 0 and the print
succeed, mount returns no error and prints the mount path, with the disk and
the filter left attached. -/
theorem mountAction_ignores_open_error (env : Env) (arg0 : String) (layers : List String)
    (w : World) (path : String) (st : FileInfo) (ld : LayerData) (mp : String) (e : ExtErr)
    (hA : env.Abs arg0 = .ok path)
    (hS : Stat w.fs (env.Join path containerSandboxVHDXName) = .ok st)
    (hV : env.AttachVhd (env.Join path containerSandboxVHDXName) = none)
    (hL : getLayerData env w.fs layers true = .ok ld)
    (hF : env.AttachLayerStorageFilter path ld = none)
    (hO : env.OpenVirtualDisk (env.Join path containerSandboxVHDXName) = .error e)
    (hG : env.GetLayerVhdMountPath 0 = .ok mp)
    (hP : env.Println mp = none) :
    (mountAction env arg0 layers w).1 = none ∧
    (mountAction env arg0 layers w).2.stdout = w.stdout ++ [mp] ∧
    (mountAction env arg0 layers w).2.res =
      { vhds := env.Join path containerSandboxVHDXName :: w.res.vhds,
        filters := path :: w.res.filters } ∧
    { call := .OpenVirtualDisk (env.Join path containerSandboxVHDXName), ok := false } ∈
      (mountAction env arg0 layers w).2.trace := by
  have hG2 : env.GetLayerVhdMountPath
      (openedHandle env (env.Join path containerSandboxVHDXName)) = .ok mp := by
    simp [openedHandle, callOpenVirtualDisk, hO, hG]
  obtain ⟨h1, h2, h3, -⟩ := mountAction_success env arg0 layers w path st ld mp hA hS hV hL hF hG2 hP
  refine ⟨h1, h2, h3, ?_⟩
  simp [mountAction, mountFilter, mountResolve, callStat, callAttachVhd, callDetachVhd,
      callGetLayerData, callAttachLayerStorageFilter, callDetachLayerStorageFilter,
      callOpenVirtualDisk, callCloseHandle, callGetLayerVhdMountPath, callPrintln,
      World.log, Except.toBool, hA, hS, hV, hL, hF, hG, hP, hO]

/-- C8 at a concrete input: `OpenVirtualDisk` fails with error 2 on
`/scratch/sandbox.vhdx`, yet mount returns no error and prints `/volume/1`. -/
theorem mountAction_ignores_open_error_witness :
    (mountAction envOpenFails "/scratch" ["/base"] (World.fresh fsDemo)).1 = none ∧
    (mountAction envOpenFails "/scratch" ["/base"] (World.fresh fsDemo)).2.stdout =
      (World.fresh fsDemo).stdout ++ ["/volume/1"] ∧
    (mountAction envOpenFails "/scratch" ["/base"] (World.fresh fsDemo)).2.res =
      { vhds := envOpenFails.Join "/scratch" containerSandboxVHDXName ::
          (World.fresh fsDemo).res.vhds,
        filters := "/scratch" :: (World.fresh fsDemo).res.filters } ∧
    { call := .OpenVirtualDisk (envOpenFails.Join "/scratch" containerSandboxVHDXName),
      ok := false } ∈
      (mountAction envOpenFails "/scratch" ["/base"] (World.fresh fsDemo)).2.trace :=
  mountAction_ignores_open_error envOpenFails "/scratch" ["/base"] (World.fresh fsDemo)
    "/scratch" { IsDir := false }
    { SchemaVersion := { Major := 2, Minor := 1 },
      Layers := [{ Id := "fffff", Path := "/base", PathType := "AbsolutePath" }] }
    "/volume/1" (.other 2) rfl (by decide) rfl (by decide) rfl rfl rfl rfl

/-- C9, what the code does: unmount only detaches the storage filter.  Whenever
mount and then unmount of the same scratch path both succeed, the scratch disk
mount attached is still attached afterwards, so the resources differ from
those before the mount; the only release unmount issues is
`DetachLayerStorageFilter`. -/
theorem mount_then_unmount_keeps_vhd (env : Env) (arg0 : String) (layers : List String)
    (w : World) (hm : (mountAction env arg0 layers w).1 = none)
    (hu : (unmountAction env arg0 (mountAction env arg0 layers w).2).1 = none) :
    ∃ path, env.Abs arg0 = .ok path ∧
      (unmountAction env arg0 (mountAction env arg0 layers w).2).2.res =
        { vhds := env.Join path containerSandboxVHDXName :: w.res.vhds,
          filters := w.res.filters.filter (fun q => q != path) } ∧
      (unmountAction env arg0 (mountAction env arg0 layers w).2).2.res ≠ w.res ∧
      detachCalls (newEvents (mountAction env arg0 layers w).2
          (unmountAction env arg0 (mountAction env arg0 layers w).2).2) =
        [.DetachLayerStorageFilter path] := by
  obtain ⟨path, st, ld, mp, hA, hS, hV, hL, hF, hG, hP⟩ :=
    mountAction_none_inv env arg0 layers w hm
  obtain ⟨-, -, hres, -⟩ :=
    mountAction_success env arg0 layers w path st ld mp hA hS hV hL hF hG hP
  refine ⟨path, hA, ?_⟩
  cases hDF : env.DetachLayerStorageFilter path with
  | some e => simp [unmountAction, callDetachLayerStorageFilter, hA, hDF] at hu
  | none =>
    have hres2 : (unmountAction env arg0 (mountAction env arg0 layers w).2).2.res =
        { vhds := env.Join path containerSandboxVHDXName :: w.res.vhds,
          filters := w.res.filters.filter (fun q => q != path) } := by
      simp [unmountAction, callDetachLayerStorageFilter, World.log, hA, hDF, hres]
    refine ⟨hres2, ?_, ?_⟩
    · rw [hres2]
      intro h
      have h2 : env.Join path containerSandboxVHDXName :: w.res.vhds = w.res.vhds :=
        congrArg Resources.vhds h
      exact List.cons_ne_self _ _ h2
    · simp [unmountAction, callDetachLayerStorageFilter, World.log, hA, hDF, newEvents,
        detachCalls, isDetach]

/-- C9 at a concrete input: mount then unmount of `/scratch` over `/base`, every
external call succeeding, leaves `/scratch/sandbox.vhdx` attached. -/
theorem mount_then_unmount_keeps_vhd_witness :
    (unmountAction demoEnv "/scratch"
        (mountAction demoEnv "/scratch" ["/base"] (World.fresh fsDemo)).2).2.res =
      { vhds := ["/scratch/sandbox.vhdx"], filters := [] } ∧
    (World.fresh fsDemo).res = { vhds := [], filters := [] } ∧
    ∃ path, demoEnv.Abs "/scratch" = .ok path ∧
      (unmountAction demoEnv "/scratch"
          (mountAction demoEnv "/scratch" ["/base"] (World.fresh fsDemo)).2).2.res =
        { vhds := demoEnv.Join path containerSandboxVHDXName :: (World.fresh fsDemo).res.vhds,
          filters := (World.fresh fsDemo).res.filters.filter (fun q => q != path) } ∧
      (unmountAction demoEnv "/scratch"
          (mountAction demoEnv "/scratch" ["/base"] (World.fresh fsDemo)).2).2.res ≠
        (World.fresh fsDemo).res ∧
      detachCalls (newEvents (mountAction demoEnv "/scratch" ["/base"] (World.fresh fsDemo)).2
          (unmountAction demoEnv "/scratch"
            (mountAction demoEnv "/scratch" ["/base"] (World.fresh fsDemo)).2).2) =
        [.DetachLayerStorageFilter path] :=
  ⟨by decide, rfl,
   mount_then_unmount_keeps_vhd demoEnv "/scratch" ["/base"] (World.fresh fsDemo)
     (by decide) (by decide)⟩

/-! ## Claims on `create` -/

/-- C10: when something already exists at the target path, create fails with
the `AlreadyExists` error; when the existence check fails for another reason
than not-exist, it fails with the `StatFailed` error.  In both cases the only
call made is the `Stat` of the target: the filesystem is unchanged (no
`MkdirAll`, `Create` or `Copy`) and the layers are not validated. -/
theorem createAction_existing_target (env : Env) (arg0 : String) (layers : List String)
    (w : World) (path : String) (hA : env.Abs arg0 = .ok path) :
    (∀ st, Stat w.fs path = .ok st →
      (createAction env arg0 layers w).1 = .returned (some (.somethingAlreadyExists path)) ∧
      (Error.somethingAlreadyExists path).kind = .AlreadyExists ∧
      (createAction env arg0 layers w).2.fs = w.fs ∧
      (newEvents w (createAction env arg0 layers w).2).map (fun ev => ev.call) =
        [.Stat path]) ∧
    (∀ e, Stat w.fs path = .error e → e.IsNotExist = false →
      (createAction env arg0 layers w).1 = .returned (some (.failedToStatTarget path e)) ∧
      (Error.failedToStatTarget path e).kind = .StatFailed ∧
      (createAction env arg0 layers w).2.fs = w.fs ∧
      (newEvents w (createAction env arg0 layers w).2).map (fun ev => ev.call) =
        [.Stat path]) := by
  refine ⟨fun st hS => ?_, fun e hS hn => ?_⟩
  · simp [createAction, callStat, World.log, hA, hS, newEvents, Error.kind]
  · simp [createAction, callStat, World.log, hA, hS, hn, newEvents, Error.kind]

/-- Witness for C10: the file `/file` is in the way of the new layer, and in
`fsDenied` the existence of `/new` cannot be determined. -/
theorem createAction_existing_target_witness :
    ((createAction demoEnv "/file" ["/base"] (World.fresh fsDemo)).1 =
        .returned (some (.somethingAlreadyExists "/file")) ∧
      (Error.somethingAlreadyExists "/file").kind = .AlreadyExists ∧
      (createAction demoEnv "/file" ["/base"] (World.fresh fsDemo)).2.fs =
        (World.fresh fsDemo).fs ∧
      (newEvents (World.fresh fsDemo)
          (createAction demoEnv "/file" ["/base"] (World.fresh fsDemo)).2).map
          (fun ev => ev.call) = [.Stat "/file"]) ∧
    ((createAction demoEnv "/new" ["/base"] (World.fresh fsDenied)).1 =
        .returned (some (.failedToStatTarget "/new" (.other 13))) ∧
      (Error.failedToStatTarget "/new" (.other 13)).kind = .StatFailed ∧
      (createAction demoEnv "/new" ["/base"] (World.fresh fsDenied)).2.fs =
        (World.fresh fsDenied).fs ∧
      (newEvents (World.fresh fsDenied)
          (createAction demoEnv "/new" ["/base"] (World.fresh fsDenied)).2).map
          (fun ev => ev.call) = [.Stat "/new"]) :=
  ⟨(createAction_existing_target demoEnv "/file" ["/base"] (World.fresh fsDemo) "/file" rfl).1
      { IsDir := false } (by decide),
   (createAction_existing_target demoEnv "/new" ["/base"] (World.fresh fsDenied) "/new" rfl).2
      (.other 13) (by decide) rfl⟩

/-! ## Claims on `remove` -/

/-- C12: remove requests the backup and restore privileges before the destroy
call.  If enabling them fails, remove returns that error and the only call
made is `EnableProcessPrivileges`, so `DestroyLayer` is never called;
otherwise the calls are `EnableProcessPrivileges` then `DestroyLayer` on the
absolute path, and remove returns exactly the result of `DestroyLayer`. -/
theorem removeAction_privileges_then_destroy (env : Env) (arg0 : String) (w : World)
    (path : String) (hA : env.Abs arg0 = .ok path) :
    (∀ e, env.EnableProcessPrivileges [SeBackupPrivilege, SeRestorePrivilege] = some e →
      (removeAction env arg0 w).1 = some (.ext e) ∧
      (newEvents w (removeAction env arg0 w).2).map (fun ev => ev.call) =
        [.EnableProcessPrivileges [SeBackupPrivilege, SeRestorePrivilege]]) ∧
    (env.EnableProcessPrivileges [SeBackupPrivilege, SeRestorePrivilege] = none →
      (removeAction env arg0 w).1 = (env.DestroyLayer path).map .ext ∧
      (newEvents w (removeAction env arg0 w).2).map (fun ev => ev.call) =
        [.EnableProcessPrivileges [SeBackupPrivilege, SeRestorePrivilege],
         .DestroyLayer path]) := by
  refine ⟨fun e hE => ?_, fun hE => ?_⟩
  · simp [removeAction, World.log, hA, hE, newEvents]
  · simp [removeAction, World.log, hA, hE, newEvents]

/-- Witness for C12: without the privileges remove of `/scratch` returns error
1314 and destroys nothing; with them it returns the error 32 of `DestroyLayer`. -/
theorem removeAction_privileges_then_destroy_witness :
    ((removeAction envNoPrivileges "/scratch" (World.fresh fsDemo)).1 =
        some (.ext (.other 1314)) ∧
      (newEvents (World.fresh fsDemo)
          (removeAction envNoPrivileges "/scratch" (World.fresh fsDemo)).2).map
          (fun ev => ev.call) =
        [.EnableProcessPrivileges [SeBackupPrivilege, SeRestorePrivilege]]) ∧
    ((removeAction envDestroyFails "/scratch" (World.fresh fsDemo)).1 =
        (envDestroyFails.DestroyLayer "/scratch").map .ext ∧
      (newEvents (World.fresh fsDemo)
          (removeAction envDestroyFails "/scratch" (World.fresh fsDemo)).2).map
          (fun ev => ev.call) =
        [.EnableProcessPrivileges [SeBackupPrivilege, SeRestorePrivilege],
         .DestroyLayer "/scratch"]) :=
  ⟨(removeAction_privileges_then_destroy envNoPrivileges "/scratch" (World.fresh fsDemo)
      "/scratch" rfl).1 (.other 1314) rfl,
   (removeAction_privileges_then_destroy envDestroyFails "/scratch" (World.fresh fsDemo)
      "/scratch" rfl).2 rfl⟩

/-! ## Claims on the base-most layer in `create` -/

/-- With `needOne` set, a stack `getLayerData` returns has a last layer. -/
theorem getLayerData_needOne_last (env : Env) (fs : FS) (il : List String) (ld : LayerData)
    (h : getLayerData env fs il true = .ok ld) :
    il ≠ [] ∧ ld.Layers ≠ [] ∧ ∃ base, ld.Layers[ld.Layers.length - 1]? = some base := by
  have hlen := (getLayerData_ok_forall₂ env fs il true ld h).length_eq
  have hne : il ≠ [] := by
    rintro rfl
    simp [getLayerData] at h
  have hpos : 0 < ld.Layers.length := by
    rw [← hlen]
    exact List.length_pos.2 hne
  refine ⟨hne, List.length_pos.1 hpos, ld.Layers[ld.Layers.length - 1], ?_⟩
  exact List.getElem?_eq_getElem (by omega)

/-- C13: whenever `getLayerData` with `needOne` set succeeds, the returned
`Layers` is non-empty and the index `len(Layers)-1` is valid; the create action
never ends in an index-out-of-range panic; and the empty layer list is
rejected with the at-least-one-layer error before the index is taken. -/
theorem createAction_index_in_bounds (env : Env) (arg0 : String) (layers : List String)
    (w : World) :
    (∀ (fs : FS) (ld : LayerData), getLayerData env fs layers true = .ok ld →
      ld.Layers ≠ [] ∧ ld.Layers.length - 1 < ld.Layers.length ∧
      ∃ base, ld.Layers[ld.Layers.length - 1]? = some base) ∧
    (createAction env arg0 layers w).1 ≠ .indexOutOfRange ∧
    (∀ fs : FS, getLayerData env fs [] true = .error .atLeastOneLayer) ∧
    (∀ path e, env.Abs arg0 = .ok path → Stat w.fs path = .error e → e.IsNotExist = true →
      (createAction env arg0 [] w).1 = .returned (some .atLeastOneLayer)) := by
  refine ⟨?_, ?_, ?_, ?_⟩
  · intro fs ld h
    obtain ⟨-, hne, hb⟩ := getLayerData_needOne_last env fs layers ld h
    exact ⟨hne, Nat.sub_lt (List.length_pos.2 hne) Nat.one_pos, hb⟩
  · cases hA : env.Abs arg0 with
    | error e => simp [createAction, hA]
    | ok path =>
      cases hS : Stat w.fs path with
      | ok st => simp [createAction, callStat, hA, hS]
      | error e =>
        cases hn : e.IsNotExist with
        | false => simp [createAction, callStat, hA, hS, hn]
        | true =>
          cases hL : getLayerData env w.fs layers true with
          | error e2 => simp [createAction, callStat, callGetLayerData, World.log, hA, hS, hn, hL]
          | ok ld =>
            obtain ⟨-, -, base, hb⟩ := getLayerData_needOne_last env w.fs layers ld hL
            simp only [createAction, callStat, callGetLayerData, World.log, hA, hS, hn, hL, hb,
              Bool.not_true, Bool.false_eq_true, if_false]
            split <;> simp
  · intro fs
    simp [getLayerData]
  · intro path e hA hS hn
    simp [createAction, callStat, callGetLayerData, World.log, hA, hS, hn, getLayerData]

/-- The walk of `os.MkdirAll` never changes an entry that exists. -/
theorem mkdirAllLoop_keeps (env : Env) (p : String) (n : Node) :
    ∀ (qs : List String) (fs : FS), fs p = .ok n → (mkdirAllLoop env qs fs).2 p = .ok n
  | [], fs, h => by simpa [mkdirAllLoop] using h
  | q :: rest, fs, h => by
    rw [mkdirAllLoop]
    cases hq : fs q with
    | ok node =>
      cases node with
      | dir => exact mkdirAllLoop_keeps env p n rest fs h
      | file c => exact h
    | error e =>
      cases hf : env.MkdirFault q with
      | some e2 => exact h
      | none =>
        refine mkdirAllLoop_keeps env p n rest (fs.set q .dir) ?_
        have hpq : p ≠ q := by
          rintro rfl
          rw [h] at hq
          cases hq
        simp [FS.set, hpq, h]

/-- When lines 54-69 of create.go succeed on a template that exists at another
path than the scratch disk, the template is a file and the scratch disk ends
with the content of that file, which is itself unchanged. -/
theorem createCopy_success (env : Env) (w0 : World) (path tpl : String) (n : Node)
    (hne : env.Join path containerSandboxVHDXName ≠ tpl) (hT : w0.fs tpl = .ok n)
    (h : (createCopy env w0 path tpl).1 = none) :
    ∃ c, n = .file c ∧
      (createCopy env w0 path tpl).2.fs (env.Join path containerSandboxVHDXName) =
        .ok (.file c) ∧
      (createCopy env w0 path tpl).2.fs tpl = .ok (.file c) := by
  have hK := mkdirAllLoop_keeps env tpl n (env.Ancestors path ++ [path]) w0.fs hT
  have hne2 : tpl ≠ env.Join path containerSandboxVHDXName := fun h2 => hne h2.symm
  cases hM : mkdirAllLoop env (env.Ancestors path ++ [path]) w0.fs with
  | mk em fs1 =>
    rw [hM] at hK
    simp only at hK
    cases em with
    | some e => simp [createCopy, callMkdirAll, hM] at h
    | none =>
      cases hCF : env.CreateFault (env.Join path containerSandboxVHDXName) with
      | some e => simp [createCopy, callMkdirAll, callCreate, World.log, hM, hCF] at h
      | none =>
        cases hPF : env.CopyFault (env.Join path containerSandboxVHDXName) tpl with
        | some e =>
          exfalso
          cases hf : fs1 (env.Join path containerSandboxVHDXName) with
          | ok node =>
            cases node <;>
            simp [createCopy, callMkdirAll, callCreate, callCopy, callClose, World.log, hM,
              hCF, hPF, hf] at h
          | error e2 =>
            cases e2 <;>
            simp [createCopy, callMkdirAll, callCreate, callCopy, callClose, World.log, hM,
              hCF, hPF, hf] at h
        | none =>
          cases n with
          | dir =>
            exfalso
            cases hf : fs1 (env.Join path containerSandboxVHDXName) with
            | ok node =>
              cases node <;>
              simp [createCopy, callMkdirAll, callCreate, callCopy, callClose, World.log, hM,
                hCF, hPF, hf, FS.set, hne2, hK] at h
            | error e2 =>
              cases e2 <;>
              simp [createCopy, callMkdirAll, callCreate, callCopy, callClose, World.log, hM,
                hCF, hPF, hf, FS.set, hne2, hK] at h
          | file c =>
            refine ⟨c, rfl, ?_⟩
            cases hf : fs1 (env.Join path containerSandboxVHDXName) with
            | ok node =>
              cases node with
              | dir =>
                simp [createCopy, callMkdirAll, callCreate, callCopy, callClose, World.log, hM,
                  hCF, hPF, hf, FS.set, hne2, hK] at h
              | file c2 =>
                simp [createCopy, callMkdirAll, callCreate, callCopy, callClose, World.log, hM,
                  hCF, hPF, hf, FS.set, hne2, hK]
            | error e2 =>
              cases e2 with
              | notExist =>
                simp [createCopy, callMkdirAll, callCreate, callCopy, callClose, World.log, hM,
                  hCF, hPF, hf, FS.set, hne2, hK]
              | other code =>
                simp [createCopy, callMkdirAll, callCreate, callCopy, callClose, World.log, hM,
                  hCF, hPF, hf, FS.set, hne2, hK] at h

/-- The last layer of a returned stack carries the absolute form of the last
entry of the list. -/
theorem getLayerData_last_path (env : Env) (fs : FS) (il : List String) (needOne : Bool)
    (ld : LayerData) (base : Layer) (h : getLayerData env fs il needOne = .ok ld)
    (hb : ld.Layers[ld.Layers.length - 1]? = some base) :
    ∃ last, il.getLast? = some last ∧ env.Abs last = .ok base.Path := by
  obtain ⟨hlen, hget⟩ := List.forall₂_iff_get.1 (getLayerData_ok_forall₂ env fs il needOne ld h)
  obtain ⟨hi, hbase⟩ := List.getElem?_eq_some.1 hb
  have hi2 : ld.Layers.length - 1 < il.length := hlen ▸ hi
  refine ⟨il.get ⟨ld.Layers.length - 1, hi2⟩, ?_, ?_⟩
  · rw [List.getLast?_eq_getElem?, show il.length - 1 = ld.Layers.length - 1 by omega,
      List.getElem?_eq_getElem hi2]
    rfl
  · obtain ⟨fp, g, hA, -, -, -, hl⟩ := (layerOf_ok_iff env fs _ _).1 (hget _ hi2 hi)
    have hl2 : base = { Id := env.GuidString g, Path := fp, PathType := "AbsolutePath" } := by
      rw [← hbase, ← hl]
      rfl
    rw [hl2]
    exact hA

/-- Once the target is absent, the layers are accepted and the template is
open, create returns what lines 54-69 return, after closing the template. -/
theorem createAction_eq_createCopy (env : Env) (arg0 : String) (layers : List String)
    (w : World) (path : String) (e : ExtErr) (ld : LayerData) (base : Layer) (n : Node)
    (hA : env.Abs arg0 = .ok path) (hS : Stat w.fs path = .error e)
    (hn : e.IsNotExist = true) (hL : getLayerData env w.fs layers true = .ok ld)
    (hb : ld.Layers[ld.Layers.length - 1]? = some base)
    (hT : w.fs (env.Join base.Path containerSandboxTemplateVHDXName) = .ok n)
    (hOF : env.OpenFault (env.Join base.Path containerSandboxTemplateVHDXName) = none) :
    createAction env arg0 layers w =
      (.returned (createCopy env
          (((w.log (.Stat path) false).log (.getLayerData layers true) true).log
            (.Open (env.Join base.Path containerSandboxTemplateVHDXName)) true)
          path (env.Join base.Path containerSandboxTemplateVHDXName)).1,
       (callClose (createCopy env
          (((w.log (.Stat path) false).log (.getLayerData layers true) true).log
            (.Open (env.Join base.Path containerSandboxTemplateVHDXName)) true)
          path (env.Join base.Path containerSandboxTemplateVHDXName)).2
          (env.Join base.Path containerSandboxTemplateVHDXName)).2) := by
  simp [createAction, callStat, callGetLayerData, callOpen, callClose, World.log, hA, hS, hn,
    hL, hb, hT, hOF, Except.toBool]

/-- In `demoEnv` a path joined with `sandbox.vhdx` is never a path joined with
`blank.vhdx`. -/
theorem demoEnv_join_ne (a b : String) :
    demoEnv.Join a containerSandboxVHDXName ≠
      demoEnv.Join b containerSandboxTemplateVHDXName := by
  intro h
  have h2 := congrArg (fun s => (s.data.reverse).take 6) h
  have e1 : containerSandboxVHDXName.data =
      ['s', 'a', 'n', 'd', 'b', 'o', 'x', '.', 'v', 'h', 'd', 'x'] := rfl
  have e2 : containerSandboxTemplateVHDXName.data =
      ['b', 'l', 'a', 'n', 'k', '.', 'v', 'h', 'd', 'x'] := rfl
  simp [demoEnv, String.data_append, e1, e2] at h2

/-- C11: when the create action succeeds, the target path did not exist, the
layer list has a last entry, and the file `sandbox.vhdx` under the target
exists with exactly the content (so the byte length) of `blank.vhdx` under the
absolute form of that last entry, the base-most layer; the template itself is
unchanged.  The one fact used of `filepath.Join` is that a path ending in
`sandbox.vhdx` is not a path ending in `blank.vhdx`. -/
theorem createAction_copies_template (env : Env) (arg0 : String) (layers : List String)
    (w : World)
    (hJoin : ∀ a b : String,
      env.Join a containerSandboxVHDXName ≠ env.Join b containerSandboxTemplateVHDXName)
    (h : (createAction env arg0 layers w).1 = .returned none) :
    ∃ path last basePath c,
      env.Abs arg0 = .ok path ∧
      (∃ e, Stat w.fs path = .error e ∧ e.IsNotExist = true) ∧
      layers.getLast? = some last ∧
      env.Abs last = .ok basePath ∧
      w.fs (env.Join basePath containerSandboxTemplateVHDXName) = .ok (.file c) ∧
      (createAction env arg0 layers w).2.fs (env.Join path containerSandboxVHDXName) =
        .ok (.file c) ∧
      (createAction env arg0 layers w).2.fs
        (env.Join basePath containerSandboxTemplateVHDXName) = .ok (.file c) ∧
      Stat (createAction env arg0 layers w).2.fs (env.Join path containerSandboxVHDXName) =
        .ok { IsDir := false } := by
  cases hA : env.Abs arg0 with
  | error e => simp [createAction, hA] at h
  | ok path =>
    cases hS : Stat w.fs path with
    | ok st => simp [createAction, callStat, callGetLayerData, callOpen, World.log, Except.toBool, hA, hS] at h
    | error e =>
      cases hn : e.IsNotExist with
      | false => simp [createAction, callStat, callGetLayerData, callOpen, World.log, Except.toBool, hA, hS, hn] at h
      | true =>
        cases hL : getLayerData env w.fs layers true with
        | error e2 => simp [createAction, callStat, callGetLayerData, callOpen, World.log, Except.toBool, hA, hS, hn, hL] at h
        | ok ld =>
          obtain ⟨-, -, base, hb⟩ := getLayerData_needOne_last env w.fs layers ld hL
          obtain ⟨last, hlast, hAl⟩ := getLayerData_last_path env w.fs layers true ld base hL hb
          cases hT : w.fs (env.Join base.Path containerSandboxTemplateVHDXName) with
          | error e3 => simp [createAction, callStat, callGetLayerData, callOpen, World.log, Except.toBool, hA, hS, hn, hL, hb, hT] at h
          | ok n =>
            cases hOF : env.OpenFault (env.Join base.Path containerSandboxTemplateVHDXName) with
            | some e4 => simp [createAction, callStat, callGetLayerData, callOpen, World.log, Except.toBool, hA, hS, hn, hL, hb, hT, hOF] at h
            | none =>
              have heq := createAction_eq_createCopy env arg0 layers w path e ld base n
                hA hS hn hL hb hT hOF
              rw [heq] at h ⊢
              simp only [Exit.returned.injEq] at h
              obtain ⟨c, rfl, h1, h2⟩ := createCopy_success env _ path _ n
                (hJoin path base.Path) (by simpa [World.log] using hT) h
              refine ⟨path, last, base.Path, c, rfl, ⟨e, hS, hn⟩, hlast, hAl, hT, ?_, ?_, ?_⟩
              · simpa [callClose, World.log] using h1
              · simpa [callClose, World.log] using h2
              · have h3 : (callClose (createCopy env
                    (((w.log (.Stat path) false).log (.getLayerData layers true) true).log
                      (.Open (env.Join base.Path containerSandboxTemplateVHDXName)) true)
                    path (env.Join base.Path containerSandboxTemplateVHDXName)).2
                    (env.Join base.Path containerSandboxTemplateVHDXName)).2.fs
                    (env.Join path containerSandboxVHDXName) = .ok (.file c) := by
                  simpa [callClose, World.log] using h1
                simp only [Stat]
                rw [h3]

/-- Witness for C11: creating `/new` over the base layer `/base` succeeds, and
`/new/sandbox.vhdx` then holds the three bytes of `/base/blank.vhdx`. -/
theorem createAction_copies_template_witness :
    (createAction demoEnv "/new" ["/base"] (World.fresh fsDemo)).1 = .returned none ∧
    (createAction demoEnv "/new" ["/base"] (World.fresh fsDemo)).2.fs "/new/sandbox.vhdx" =
      .ok (.file [1, 2, 3]) ∧
    fsDemo "/base/blank.vhdx" = .ok (.file [1, 2, 3]) ∧
    ∃ path last basePath c,
      demoEnv.Abs "/new" = .ok path ∧
      (∃ e, Stat (World.fresh fsDemo).fs path = .error e ∧ e.IsNotExist = true) ∧
      ["/base"].getLast? = some last ∧
      demoEnv.Abs last = .ok basePath ∧
      (World.fresh fsDemo).fs (demoEnv.Join basePath containerSandboxTemplateVHDXName) =
        .ok (.file c) ∧
      (createAction demoEnv "/new" ["/base"] (World.fresh fsDemo)).2.fs
        (demoEnv.Join path containerSandboxVHDXName) = .ok (.file c) ∧
      (createAction demoEnv "/new" ["/base"] (World.fresh fsDemo)).2.fs
        (demoEnv.Join basePath containerSandboxTemplateVHDXName) = .ok (.file c) ∧
      Stat (createAction demoEnv "/new" ["/base"] (World.fresh fsDemo)).2.fs
        (demoEnv.Join path containerSandboxVHDXName) = .ok { IsDir := false } :=
  ⟨by decide, by decide, by decide,
   createAction_copies_template demoEnv "/new" ["/base"] (World.fresh fsDemo)
     demoEnv_join_ne (by decide)⟩

end WclayerV2
